import Mathlib

set_option linter.dupNamespace false

/-! zeit-pines: a shallow embedding of the HTTP storage gateway.

The five source files under `api/` are five independent Go packages (each one
declares its own `Config`, `GetConfig`, `Write` and `response`).  Every file is
embedded in a namespace of its own (`Login`, `Misc`, `Cos`, `Oss`, `Ups`); the
declarations that are textually identical in all of them (`Response`, `List`,
`ListObject`, `Write`, the body of `GetConfig`) are embedded once.

Conventions of the embedding.

* A Go `string` is a Lean `String`.  The string operations used by the source
  (`+`, `==`, `strings.Replace`) are defined on the character list, which agrees
  with Go's byte-wise behaviour on well-formed UTF-8 text.
* A Go `error` is represented by its text, the result of `err.Error()`.
* `json.Marshal` is injective on the values the handlers pass to it, so a
  marshalled body is represented by the value that was marshalled
  (`Envelope`); the package-level `response []byte` is an `Option Envelope`,
  `none` being the `nil` slice a fresh process starts with.
* `Write` is represented by the body it hands to `w.Write`; the five fixed
  headers it sets before that are not part of the model.
* A `panic` that leaves a handler is the outcome `Outcome.panic`, carrying the
  bodies written before the panic.
* The vendor SDKs are parameters: a record of transition functions over an
  abstract backend state.
-/

namespace Pines

/-! ## Values shared by the five packages -/

/-- A `time.Time`, as the number of seconds since the zero value `time.Time{}`. -/
structure Time where
  sec : Int
  deriving DecidableEq, Repr

/-- The zero value `time.Time{}`. -/
def Time.zero : Time := ⟨0⟩

/-- The dynamic values stored in the `interface{}` fields of the JSON structs:
`nil` (marshalled as `null`), a string, an integer or a time. -/
inductive Value where
  | null
  | str (s : String)
  | int (n : Int)
  | time (t : Time)
  deriving DecidableEq, Repr

/-- `ListObject` (cos.go:45, oss.go:40, ups.go:37). -/
structure ListObject where
  Filename : String
  Prefix : String
  IsDir : Bool
  Size : Value
  CreateTime : Value
  deriving DecidableEq, Repr

/-- `Response` (cos.go:30, oss.go:25, ups.go:22); `Data` is `nil` or a string
in every use. -/
structure Response where
  Code : Int
  Message : Value
  Data : Value
  deriving DecidableEq, Repr

/-- The struct `List` of the source (cos.go:37, oss.go:32, ups.go:29); `Data`
always holds a `[]ListObject`. -/
structure ListReply where
  Code : Int
  Count : Int
  Message : Value
  Data : List ListObject
  deriving DecidableEq, Repr

/-- The values handed to `json.Marshal` by the handlers: `Response`, `List`,
the two anonymous structs of `Login` (login.go:66 and login.go:76) and the
anonymous struct of `GetUploadAPI` (misc.go:57). -/
inductive Envelope where
  | response (r : Response)
  | list (l : ListReply)
  | loginError (Code : Int) (Errors : String)
  | loginOk (Code : Int) (Message : String) (Data : Value)
  | uploadAPI (Code : Int) (Utoken : String) (URL : Value)
  deriving DecidableEq, Repr

/-- The package-level `response []byte`. -/
abbrev Buffer := Option Envelope

/-- The JSON member `code` of a marshalled body. -/
def Envelope.code : Envelope → Int
  | .response r => r.Code
  | .list l => l.Code
  | .loginError c _ => c
  | .loginOk c _ _ => c
  | .uploadAPI c _ _ => c

/-- The JSON member `message` of a marshalled body, when the struct has one. -/
def Envelope.message : Envelope → Option Value
  | .response r => some r.Message
  | .list l => some l.Message
  | .loginError _ _ => none
  | .loginOk _ m _ => some (.str m)
  | .uploadAPI _ _ _ => none

/-- The JSON member `errors` of a marshalled body, when the struct has one. -/
def Envelope.errors : Envelope → Option String
  | .loginError _ e => some e
  | _ => none

/-- The JSON member `data` of a marshalled body that is a plain value. -/
def Envelope.data : Envelope → Option Value
  | .response r => some r.Data
  | .loginOk _ _ d => some d
  | _ => none

/-- The outcome of running a handler: it returns, or a panic leaves it.  The
panic carries what the `http.ResponseWriter` had received by then. -/
inductive Outcome (S : Type) where
  | panic (msg : String) (written : List Buffer)
  | done (final : S)
  deriving DecidableEq, Repr

/-! ## Requests -/

/-- `url.Values` (also the `Value` map of a `multipart.Form`): the values of
each key, in order. -/
abbrev Values := List (String × List String)

/-- The map access `v[key]`: the values of `key`, `nil` when it has none. -/
def Values.lookup (v : Values) (key : String) : List String :=
  match v.find? (fun kv => kv.1 == key) with
  | some kv => kv.2
  | none => []

/-- `url.Values.Get`: the first value of `key`, the empty string when there is
none. -/
def Values.Get (v : Values) (key : String) : String :=
  match Values.lookup v key with
  | [] => ""
  | x :: _ => x

/-- A `multipart.FileHeader`: the file name and the bytes `Open` gives. -/
structure FileHeader where
  Filename : String
  content : List Nat
  deriving DecidableEq, Repr

/-- The parts of an `http.Request` the handlers look at: the parsed query
`r.URL.Query()`, the result of `r.FormFile("file")`, and `r.MultipartForm.Value`
after `r.ParseMultipartForm` (`none` when `r.MultipartForm` is `nil`). -/
structure Request where
  query : Values
  formFile : Except String FileHeader
  multipartForm : Option Values

/-! ## The configuration file -/

/-- The environment of `GetConfig` for a package whose configuration struct is
`C`: what `ioutil.ReadFile("config.yaml")` returns, and `yaml.Unmarshal` into a
fresh `C`. -/
structure Env (C : Type) where
  readFile : Except String (List Nat)
  unmarshal : List Nat → Except String C

/-- `GetConfig` of cos.go:72, oss.go:67 and ups.go:62 (the configuration is a
local variable there).  `Except.error` is a panic with that message. -/
def GetConfig {C : Type} (env : Env C) : Except String C :=
  match env.readFile with
  | .error err => .error err
  | .ok yamlFile =>
    match env.unmarshal yamlFile with
    | .error err => .error ("read config file error:" ++ err)
    | .ok config => .ok config

/-- `Write`: the body passed to `w.Write` is appended to what the
`http.ResponseWriter` has received. -/
def Write (w : List Buffer) (response : Buffer) : List Buffer :=
  w ++ [response]

/-! ## Strings -/

/-- `strings.HasPrefix`. -/
def HasPrefix (s pre : String) : Bool :=
  pre.data.isPrefixOf s.data

/-- `strings.Index` for a non-empty `sub`: the position of its first occurrence
in `s`. -/
def indexOf (sub : List Char) : List Char → Option Nat
  | [] => if sub.isPrefixOf [] then some 0 else none
  | c :: t =>
    if sub.isPrefixOf (c :: t) then some 0
    else (indexOf sub t).map (· + 1)

/-- The loop of `strings.Replace` for a non-empty `old`: at most `n`
occurrences, left to right, not overlapping. -/
def replaceLoop (old new : List Char) : Nat → List Char → List Char
  | 0, s => s
  | n + 1, s =>
    match indexOf old s with
    | none => s
    | some j => s.take j ++ new ++ replaceLoop old new n (s.drop (j + old.length))

/-- The loop of `strings.Replace` for an empty `old`: `new` is inserted at the
start and after each character, at most `n` times. -/
def insertLoop (new : List Char) : Nat → List Char → List Char
  | 0, s => s
  | _ + 1, [] => new
  | n + 1, c :: t => new ++ c :: insertLoop new n t

/-- `strings.Replace(s, old, new, n)`; a negative `n` means no limit. -/
def Replace (s old new : String) (n : Int) : String :=
  if old = new ∨ n = 0 then s
  else
    let limit := if n < 0 then s.data.length + 1 else n.toNat
    if old.data = [] then String.mk (insertLoop new.data limit s.data)
    else String.mk (replaceLoop old.data new.data limit s.data)

/-! ## login.go -/

namespace Login

/-- `Config` (login.go:13). -/
structure Config where
  Port : String
  Default : String
  Token : String
  UToken : String
  deriving DecidableEq, Repr

/-- The package-level variables `response` and `config` (login.go:20). -/
structure Pkg where
  response : Buffer
  config : Option Config
  deriving DecidableEq, Repr

/-- `GetConfig` (login.go:28): the result is stored in the package-level
`config`, which is also what is returned.  `Except.error` is a panic. -/
def GetConfig (env : Env Config) (pkg : Pkg) : Except String Pkg :=
  match env.readFile with
  | .error err => .error err
  | .ok yamlFile =>
    match env.unmarshal yamlFile with
    | .error err => .error ("read config file error:" ++ err)
    | .ok config => .ok { pkg with config := some config }

/-- `TokenAuth` (login.go:55). -/
def TokenAuth (env : Env Config) (token : String) (pkg : Pkg) :
    Except String (Bool × Pkg) :=
  match GetConfig env pkg with
  | .error msg => .error msg
  | .ok pkg1 =>
    match pkg1.config with
    | none => .error "nil pointer dereference"
    | some config => if token ≠ config.Token then .ok (false, pkg1) else .ok (true, pkg1)

/-- `Login` (login.go:63).  The result holds the package variables after the
call and the bodies written to `w`. -/
def Login (env : Env Config) (r : Request) (pkg : Pkg) : Outcome (Pkg × List Buffer) :=
  match GetConfig env pkg with
  | .error msg => .panic msg []
  | .ok pkg1 =>
    match TokenAuth env (r.query.Get "token") pkg1 with
    | .error msg => .panic msg []
    | .ok (false, pkg2) =>
      let response : Buffer := some (.loginError 500 "token error")
      .done ({ pkg2 with response := response }, Write [] response)
    | .ok (true, pkg2) =>
      match pkg2.config with
      | none => .panic "nil pointer dereference" []
      | some config =>
        let response : Buffer := some (.loginOk 200 "ok" (.str config.Token))
        .done ({ pkg2 with response := response }, Write [] response)

end Login

/-! ## Shared by cos.go, oss.go and ups.go -/

/-- What a backend handler leaves behind when it returns: the package-level
variables, the backend, and the bodies written to `w`. -/
structure Final (P σ : Type) where
  pkg : P
  backend : σ
  written : List Buffer

/-- The bodies a handler wrote to `w`, whether it returned or panicked. -/
def Outcome.bodies {P σ : Type} : Outcome (Final P σ) → List Buffer
  | .panic _ written => written
  | .done final => final.written

/-- The `prefix` form field of an upload, as computed at cos.go:193-200,
oss.go:193-200 and ups.go:153-160: the first value of the multipart field
`prefix`, the empty string when there is no form or no such field. -/
def uploadPrefix (r : Request) : String :=
  match r.multipartForm with
  | none => ""
  | some form =>
    match Values.lookup form "prefix" with
    | [] => ""
    | x :: _ => x

/-! ## cos.go -/

namespace Cos

/-- `Cos` (cos.go:20). -/
structure Cos where
  SecretID : String
  SecretKey : String
  Bucket : String
  Region : String
  Domain : String
  APIAddress : String
  deriving DecidableEq, Repr

/-- `Config` (cos.go:54); `Cos` is an embedded struct. -/
structure Config extends Cos where
  Port : String
  Default : String
  Token : String
  UToken : String
  deriving DecidableEq, Repr

/-- `cos.Object`: the fields the handler reads. -/
structure Object where
  Key : String
  LastModified : String
  Size : Int
  deriving DecidableEq, Repr

/-- `cos.BucketGetOptions`: the fields the handler sets. -/
structure BucketGetOptions where
  Prefix : String
  Delimiter : String
  Marker : String
  deriving DecidableEq, Repr

/-- `cos.BucketGetResult`: the listed page, with the two fields by which the
service announces that more pages follow. -/
structure BucketGetResult where
  CommonPrefixes : List String
  Contents : List Object
  IsTruncated : Bool
  NextMarker : String
  deriving DecidableEq, Repr

/-- The three SDK calls made through `cos.Client`, over a backend state `σ`:
`Bucket.Get`, `Object.Delete` and `Object.Put` (whose reader is `nil` for
`mkdir`).  An error is its text. -/
structure Client (σ : Type) where
  BucketGet : BucketGetOptions → σ → Except String BucketGetResult × σ
  ObjectDelete : String → σ → Option String × σ
  ObjectPut : String → Option (List Nat) → σ → Option String × σ

/-- The package-level variables `CosConfig` and `response` (cos.go:62); the
third, `CosClient`, is the client made from `CosConfig`. -/
structure Pkg where
  CosConfig : Option Config
  response : Buffer
  deriving DecidableEq, Repr

/-- `InitCosClient` (cos.go:99), up to the creation of the client: the loaded
configuration with `APIAddress` overwritten by the formatted bucket URL. -/
def InitCosClient (env : Env Config) : Except String Config :=
  match GetConfig env with
  | .error msg => .error msg
  | .ok CosConfig =>
    .ok { CosConfig with
      APIAddress := "https://" ++ CosConfig.Bucket ++ ".cos." ++ CosConfig.Region ++
        ".myqcloud.com" }

/-- The block `var domain string; if CosConfig.Domain == "" …` that occurs at
cos.go:163, cos.go:220 and cos.go:232. -/
def domain (CosConfig : Config) : String :=
  if CosConfig.Domain = "" then CosConfig.APIAddress ++ "/" else CosConfig.Domain

/-- The two loops at cos.go:145-161 that fill `result`. -/
def listResult (pre : String) (v : BucketGetResult) : List ListObject :=
  v.CommonPrefixes.map (fun dirname =>
    { Filename := Replace dirname pre "" 1
      CreateTime := .str ""
      IsDir := true
      Prefix := pre
      Size := .null }) ++
  v.Contents.map (fun obj =>
    { Filename := Replace obj.Key pre "" 1
      CreateTime := .str obj.LastModified
      IsDir := false
      Prefix := pre
      Size := .int obj.Size })

/-- What a page of the listing reports, in the order the handler reads it:
each common prefix (`Sum.inl`), then each object (`Sum.inr`). -/
def reported (v : BucketGetResult) : List (String ⊕ Object) :=
  v.CommonPrefixes.map Sum.inl ++ v.Contents.map Sum.inr

/-- The key or common prefix of a reported item. -/
def keyOf : String ⊕ Object → String
  | .inl dirname => dirname
  | .inr obj => obj.Key

/-- `CosHandler` (cos.go:121).  `newClient` stands for `cos.NewClient` applied
to the bucket URL and the credentials of the configuration. -/
def CosHandler {σ : Type} (env : Env Config) (newClient : Config → Client σ)
    (r : Request) (pkg : Pkg) (s : σ) : Outcome (Final Pkg σ) :=
  match InitCosClient env with
  | .error msg => .panic msg []
  | .ok CosConfig =>
    let CosClient := newClient CosConfig
    let pkg := { pkg with CosConfig := some CosConfig }
    let operate := r.query.Get "operate"
    if operate = "list" then
      let pre := r.query.Get "prefix"
      let opt : BucketGetOptions := { Prefix := pre, Delimiter := "/", Marker := pre }
      match CosClient.BucketGet opt s with
      | (.error err, s1) =>
        let response : Buffer :=
          some (.response { Code := 500, Message := .str ("ErrorListObject:" ++ err), Data := .null })
        .done { pkg := { pkg with response := response }, backend := s1,
                written := Write [] response }
      | (.ok v, s1) =>
        let result := listResult pre v
        let response : Buffer :=
          some (.list { Code := 200, Message := .str (domain CosConfig), Data := result,
                        Count := result.length })
        .done { pkg := { pkg with response := response }, backend := s1,
                written := Write [] response }
    else if operate = "delete" then
      let path := r.query.Get "path"
      match CosClient.ObjectDelete path s with
      | (some err, s1) =>
        let response : Buffer :=
          some (.response { Code := 500, Message := .str ("ErrorObjectDelete:" ++ err), Data := .null })
        .done { pkg := { pkg with response := response }, backend := s1,
                written := Write [] response }
      | (none, s1) =>
        let response : Buffer :=
          some (.response { Code := 200, Message := .str "ok", Data := .null })
        .done { pkg := { pkg with response := response }, backend := s1,
                written := Write [] response }
    else if operate = "upload" then
      let pre := uploadPrefix r
      match r.formFile with
      | .error err =>
        let response : Buffer :=
          some (.response { Code := 500, Message := .str ("ErrorUpload:" ++ err), Data := .null })
        .done { pkg := { pkg with response := response }, backend := s,
                written := Write [] response }
      | .ok header =>
        let dst := header.Filename
        let source := header.content
        match CosClient.ObjectPut (pre ++ dst) (some source) s with
        | (some err, s1) =>
          let response : Buffer :=
            some (.response { Code := 500, Message := .str ("ErrorObjectUpload:" ++ err), Data := .null })
          .done { pkg := { pkg with response := response }, backend := s1,
                  written := Write [] response }
        | (none, s1) =>
          let response : Buffer :=
            some (.response { Code := 200, Message := .str "ok",
                              Data := .str (domain CosConfig ++ pre ++ dst) })
          .done { pkg := { pkg with response := response }, backend := s1,
                  written := Write [] response }
    else if operate = "domain" then
      let response : Buffer :=
        some (.response { Code := 200, Message := .str (domain CosConfig), Data := .null })
      .done { pkg := { pkg with response := response }, backend := s,
              written := Write [] response }
    else if operate = "mkdir" then
      let pre := r.query.Get "prefix"
      let dirname := r.query.Get "dirname"
      match CosClient.ObjectPut (pre ++ dirname) none s with
      | (some err, s1) =>
        let response : Buffer :=
          some (.response { Code := 500, Message := .str ("ErrorMkdir:" ++ err), Data := .null })
        .done { pkg := { pkg with response := response }, backend := s1,
                written := Write [] response }
      | (none, s1) =>
        let response : Buffer :=
          some (.response { Code := 200, Message := .str "ok", Data := .null })
        .done { pkg := { pkg with response := response }, backend := s1,
                written := Write [] response }
    else
      .done { pkg := pkg, backend := s, written := Write [] pkg.response }

end Cos

/-! ## oss.go -/

namespace Oss

/-- `Oss` (oss.go:16). -/
structure Oss where
  Ak : String
  Sk : String
  Bucket : String
  Endpoint : String
  Domain : String
  deriving DecidableEq, Repr

/-- `Config` (oss.go:49); `Oss` is an embedded struct. -/
structure Config extends Oss where
  Port : String
  Default : String
  Token : String
  UToken : String
  deriving DecidableEq, Repr

/-- `oss.ObjectProperties`: the fields the handler reads. -/
structure ObjectProperties where
  Key : String
  LastModified : Time
  Size : Int
  deriving DecidableEq, Repr

/-- `oss.ListObjectsResult`: the fields the handler reads. -/
structure ListObjectsResult where
  Prefix : String
  NextMarker : String
  CommonPrefixes : List String
  Objects : List ObjectProperties
  IsTruncated : Bool
  deriving DecidableEq, Repr

/-- The three SDK calls made through `*oss.Bucket`, over a backend state `σ`:
`ListObjects` with its marker, prefix and delimiter options, `DeleteObject` and
`PutObject` (whose reader is `nil` for `mkdir`). -/
structure Bucket (σ : Type) where
  ListObjects : (marker pre delimiter : String) → σ → Except String ListObjectsResult × σ
  DeleteObject : String → σ → Option String × σ
  PutObject : String → Option (List Nat) → σ → Option String × σ

/-- The SDK entry points used by `InitOssClient`: `oss.New(endpoint, ak, sk)`
followed by `client.Bucket(name)`. -/
structure SDK (σ : Type) where
  New : (endpoint ak sk : String) → Except String (String → Except String (Bucket σ))

/-- The package-level variables `OssConfig` and `response` (oss.go:57); the
third, `OssClient`, is the bucket handle `InitOssClient` obtains. -/
structure Pkg where
  OssConfig : Option Config
  response : Buffer
  deriving DecidableEq, Repr

/-- `InitOssClient` (oss.go:94): a panic, or the configuration together with
either the `*Response` that reports a failure or the bucket handle. -/
def InitOssClient {σ : Type} (env : Env Config) (sdk : SDK σ) :
    Except String (Config × (Response ⊕ Bucket σ)) :=
  match GetConfig env with
  | .error msg => .error msg
  | .ok OssConfig =>
    match sdk.New OssConfig.Endpoint OssConfig.Ak OssConfig.Sk with
    | .error err =>
      .ok (OssConfig, .inl { Code := 500, Message := .str ("ErrorInitClient:" ++ err), Data := .null })
    | .ok client =>
      match client OssConfig.Bucket with
      | .error err =>
        .ok (OssConfig, .inl { Code := 500, Message := .str ("ErrorInitBucket:" ++ err), Data := .null })
      | .ok OssClient => .ok (OssConfig, .inr OssClient)

/-- The two inner loops at oss.go:146-162: the entries one page adds to
`result`. -/
def pageResult (path : String) (lsRes : ListObjectsResult) : List ListObject :=
  lsRes.CommonPrefixes.map (fun dirname =>
    { Filename := Replace dirname path "" 1
      CreateTime := .time Time.zero
      IsDir := true
      Prefix := path
      Size := .null }) ++
  lsRes.Objects.map (fun obj =>
    { Filename := Replace obj.Key path "" 1
      CreateTime := .time obj.LastModified
      IsDir := false
      Prefix := path
      Size := .int obj.Size })

/-- What a page of the listing reports, in the order the handler reads it:
each common prefix (`Sum.inl`), then each object (`Sum.inr`). -/
def reported (lsRes : ListObjectsResult) : List (String ⊕ ObjectProperties) :=
  lsRes.CommonPrefixes.map Sum.inl ++ lsRes.Objects.map Sum.inr

/-- The key or common prefix of a reported item. -/
def keyOf : String ⊕ ObjectProperties → String
  | .inl dirname => dirname
  | .inr obj => obj.Key

/-- The `for` loop at oss.go:136-168.  `fuel` bounds the number of iterations;
`none` means the loop is still running when the fuel is spent.  Otherwise the
result is the error of the failing call or the final `result`, with the
backend state. -/
def listLoop {σ : Type} (OssClient : Bucket σ) (path : String) :
    Nat → (maker pre : String) → List ListObject → σ →
      Option (Except String (List ListObject) × σ)
  | 0, _, _, _, _ => none
  | fuel + 1, maker, pre, result, s =>
    match OssClient.ListObjects maker pre "/" s with
    | (.error err, s1) => some (.error err, s1)
    | (.ok lsRes, s1) =>
      let result := result ++ pageResult path lsRes
      if !lsRes.IsTruncated then some (.ok result, s1)
      else listLoop OssClient path fuel lsRes.NextMarker lsRes.Prefix result s1

/-- The chain of pages the backend serves when the listing is followed the way
the loop follows it: the first request carries `maker` and `pre`, each further
request carries the `NextMarker` and the echoed `Prefix` of the page before, and
the chain ends with the first page that is not truncated.  `Chain B maker pre s
pages s1` says that the backend, started in state `s`, serves exactly `pages`
and is left in state `s1`. -/
inductive Chain {σ : Type} (B : Bucket σ) :
    String → String → σ → List ListObjectsResult → σ → Prop where
  | last {maker pre : String} {s s1 : σ} {pg : ListObjectsResult} :
      B.ListObjects maker pre "/" s = (.ok pg, s1) → pg.IsTruncated = false →
      Chain B maker pre s [pg] s1
  | more {maker pre : String} {s s1 s2 : σ} {pg : ListObjectsResult}
      {rest : List ListObjectsResult} :
      B.ListObjects maker pre "/" s = (.ok pg, s1) → pg.IsTruncated = true →
      Chain B pg.NextMarker pg.Prefix s1 rest s2 →
      Chain B maker pre s (pg :: rest) s2

/-- `OssHandler` (oss.go:120).  `fuel` bounds the listing loop; the result is
`none` when that loop does not finish within it. -/
def OssHandler {σ : Type} (env : Env Config) (sdk : SDK σ) (fuel : Nat)
    (r : Request) (pkg : Pkg) (s : σ) : Option (Outcome (Final Pkg σ)) :=
  match InitOssClient env sdk with
  | .error msg => some (.panic msg [])
  | .ok (OssConfig, .inl err) =>
    let pkg := { pkg with OssConfig := some OssConfig }
    let response : Buffer := some (.response err)
    some (.done { pkg := { pkg with response := response }, backend := s,
                  written := Write [] response })
  | .ok (OssConfig, .inr OssClient) =>
    let pkg := { pkg with OssConfig := some OssConfig }
    let operate := r.query.Get "operate"
    if operate = "list" then
      let path := r.query.Get "prefix"
      match listLoop OssClient path fuel path path [] s with
      | none => none
      | some (.error err, s1) =>
        let response : Buffer :=
          some (.response { Code := 500, Message := .str ("ErrorListObject:" ++ err), Data := .null })
        some (.done { pkg := { pkg with response := response }, backend := s1,
                      written := Write [] response })
      | some (.ok result, s1) =>
        let response : Buffer :=
          some (.list { Code := 200, Message := .str OssConfig.Domain, Data := result,
                        Count := result.length })
        some (.done { pkg := { pkg with response := response }, backend := s1,
                      written := Write [] response })
    else if operate = "delete" then
      let path := r.query.Get "path"
      match OssClient.DeleteObject path s with
      | (some err, s1) =>
        let response : Buffer :=
          some (.response { Code := 500, Message := .str ("ErrorObjectDelete:" ++ err), Data := .null })
        some (.done { pkg := { pkg with response := response }, backend := s1,
                      written := Write [] response })
      | (none, s1) =>
        let response : Buffer :=
          some (.response { Code := 200, Message := .str "ok", Data := .null })
        some (.done { pkg := { pkg with response := response }, backend := s1,
                      written := Write [] response })
    else if operate = "upload" then
      let pre := uploadPrefix r
      match r.formFile with
      | .error err =>
        let response : Buffer :=
          some (.response { Code := 500, Message := .str ("ErrorUpload:" ++ err), Data := .null })
        some (.done { pkg := { pkg with response := response }, backend := s,
                      written := Write [] response })
      | .ok header =>
        let dst := header.Filename
        let source := header.content
        match OssClient.PutObject (pre ++ dst) (some source) s with
        | (some err, s1) =>
          let response : Buffer :=
            some (.response { Code := 500, Message := .str ("ErrorObjectUpload:" ++ err), Data := .null })
          some (.done { pkg := { pkg with response := response }, backend := s1,
                        written := Write [] response })
        | (none, s1) =>
          let response : Buffer :=
            some (.response { Code := 200, Message := .str "ok",
                              Data := .str (OssConfig.Domain ++ pre ++ dst) })
          some (.done { pkg := { pkg with response := response }, backend := s1,
                        written := Write [] response })
    else if operate = "domain" then
      let response : Buffer :=
        some (.response { Code := 200, Message := .str OssConfig.Domain, Data := .null })
      some (.done { pkg := { pkg with response := response }, backend := s,
                    written := Write [] response })
    else if operate = "mkdir" then
      let pre := r.query.Get "prefix"
      let dirname := r.query.Get "dirname"
      match OssClient.PutObject (pre ++ dirname) none s with
      | (some err, s1) =>
        let response : Buffer :=
          some (.response { Code := 500, Message := .str ("ErrorMkdir:" ++ err), Data := .null })
        some (.done { pkg := { pkg with response := response }, backend := s1,
                      written := Write [] response })
      | (none, s1) =>
        let response : Buffer :=
          some (.response { Code := 200, Message := .str "ok", Data := .null })
        some (.done { pkg := { pkg with response := response }, backend := s1,
                      written := Write [] response })
    else
      some (.done { pkg := pkg, backend := s, written := Write [] pkg.response })

end Oss

/-! ## ups.go -/

namespace Ups

/-- `Ups` (ups.go:14). -/
structure Ups where
  Bucket : String
  Operator : String
  Password : String
  Domain : String
  deriving DecidableEq, Repr

/-- `Config` (ups.go:46); `Ups` is an embedded struct. -/
structure Config extends Ups where
  Port : String
  Default : String
  Token : String
  UToken : String
  deriving DecidableEq, Repr

/-- `upyun.FileInfo`: the fields the handler reads. -/
structure FileInfo where
  Name : String
  Size : Int
  Time : Time
  IsDir : Bool
  deriving DecidableEq, Repr

/-- The four SDK calls made through `*upyun.UpYun`, over a backend state `σ`.
`List` runs in a goroutine of its own and its returned error is dropped
(ups.go:103-108); what reaches the handler is the sequence of `FileInfo`s sent
on `ObjectsChan` until the SDK closes it, so `List` gives that sequence next to
the error it returns. -/
structure UpYun (σ : Type) where
  Delete : (path : String) → (async : Bool) → σ → Option String × σ
  Put : (path : String) → (reader : List Nat) → σ → Option String × σ
  Mkdir : (path : String) → σ → Option String × σ
  List : (path : String) → σ → (List FileInfo × Option String) × σ

/-- The package-level variables `UpsConfig` and `response` (ups.go:54). -/
structure Pkg where
  UpsConfig : Option Config
  response : Buffer
  deriving DecidableEq, Repr

/-- The body of the loop at ups.go:109-123: the entry made from one
`FileInfo`. -/
def entry (pre : String) (obj : FileInfo) : ListObject :=
  let filename := if obj.IsDir then obj.Name ++ "/" else obj.Name
  { Filename := filename
    Prefix := pre
    IsDir := obj.IsDir
    Size := .int obj.Size
    CreateTime := .time obj.Time }

/-- `UpsHandler` (ups.go:89).  `NewUpYun` stands for `upyun.NewUpYun` applied to
the bucket and operator of the configuration. -/
def UpsHandler {σ : Type} (env : Env Config) (NewUpYun : Config → UpYun σ)
    (r : Request) (pkg : Pkg) (s : σ) : Outcome (Final Pkg σ) :=
  match GetConfig env with
  | .error msg => .panic msg []
  | .ok UpsConfig =>
    let up := NewUpYun UpsConfig
    let pkg := { pkg with UpsConfig := some UpsConfig }
    let operate := r.query.Get "operate"
    if operate = "list" then
      let pre := r.query.Get "prefix" ++ "/"
      match up.List pre s with
      | ((objs, _), s1) =>
        let result := objs.map (entry pre)
        let response : Buffer :=
          some (.list { Code := 200, Message := .str UpsConfig.Domain, Data := result,
                        Count := result.length })
        .done { pkg := { pkg with response := response }, backend := s1,
                written := Write [] response }
    else if operate = "delete" then
      let path := r.query.Get "path"
      match up.Delete path false s with
      | (some err, s1) =>
        let response : Buffer :=
          some (.response { Code := 500, Message := .str ("ErrorDelete:" ++ err), Data := .null })
        .done { pkg := { pkg with response := response }, backend := s1,
                written := Write [] response }
      | (none, s1) =>
        let response : Buffer :=
          some (.response { Code := 200, Message := .str "ok", Data := .null })
        .done { pkg := { pkg with response := response }, backend := s1,
                written := Write [] response }
    else if operate = "upload" then
      let pre := uploadPrefix r
      match r.formFile with
      | .error err =>
        let response : Buffer :=
          some (.response { Code := 500, Message := .str ("ErrorUpload:" ++ err), Data := .null })
        .done { pkg := { pkg with response := response }, backend := s,
                written := Write [] response }
      | .ok header =>
        let dst := header.Filename
        let source := header.content
        match up.Put (pre ++ dst) source s with
        | (some err, s1) =>
          let response : Buffer :=
            some (.response { Code := 500, Message := .str ("ErrorUpload:" ++ err), Data := .null })
          .done { pkg := { pkg with response := response }, backend := s1,
                  written := Write [] response }
        | (none, s1) =>
          let response : Buffer :=
            some (.response { Code := 200, Message := .str "ok",
                              Data := .str (UpsConfig.Domain ++ pre ++ dst) })
          .done { pkg := { pkg with response := response }, backend := s1,
                  written := Write [] response }
    else if operate = "mkdir" then
      let pre := r.query.Get "prefix"
      let dirname := r.query.Get "dirname"
      match up.Mkdir (pre ++ dirname) s with
      | (some err, s1) =>
        let response : Buffer :=
          some (.response { Code := 500, Message := .str ("ErrorMkdir:" ++ err), Data := .null })
        .done { pkg := { pkg with response := response }, backend := s1,
                written := Write [] response }
      | (none, s1) =>
        let response : Buffer :=
          some (.response { Code := 200, Message := .str "ok", Data := .null })
        .done { pkg := { pkg with response := response }, backend := s1,
                written := Write [] response }
    else if operate = "domain" then
      let response : Buffer :=
        some (.response { Code := 200, Message := .str UpsConfig.Domain, Data := .null })
      .done { pkg := { pkg with response := response }, backend := s,
              written := Write [] response }
    else
      .done { pkg := pkg, backend := s, written := Write [] pkg.response }

end Ups

/-! ## misc.go -/

namespace Misc

/-- `Config` (misc.go:13). -/
structure Config where
  Port : String
  Default : String
  Token : String
  UToken : String
  deriving DecidableEq, Repr

/-- The package-level variables `response` and `config` (misc.go:20). -/
structure Pkg where
  response : Buffer
  config : Option Config
  deriving DecidableEq, Repr

/-- `GetConfig` (misc.go:28): the result is stored in the package-level
`config`.  `Except.error` is a panic. -/
def GetConfig (env : Env Config) (pkg : Pkg) : Except String Pkg :=
  match env.readFile with
  | .error err => .error err
  | .ok yamlFile =>
    match env.unmarshal yamlFile with
    | .error err => .error ("read config file error:" ++ err)
    | .ok config => .ok { pkg with config := some config }

/-- `GetUploadAPI` (misc.go:55). -/
def GetUploadAPI (env : Env Config) (_r : Request) (pkg : Pkg) :
    Outcome (Pkg × List Buffer) :=
  match GetConfig env pkg with
  | .error msg => .panic msg []
  | .ok pkg1 =>
    match pkg1.config with
    | none => .panic "nil pointer dereference" []
    | some config =>
      let response : Buffer := some (.uploadAPI 200 config.UToken (.str config.Default))
      .done ({ pkg1 with response := response }, Write [] response)

end Misc

/-! ## A flat key store

The object store behind the COS client, as the service documents it: a flat
map from keys to objects, listed one level at a time.  A listing takes the keys
that begin with the prefix and come after the marker; a key whose remainder
after the prefix contains the delimiter is rolled up into the common prefix
that ends with that delimiter, every other key is returned as an object.  The
store returns a listing as one page. -/

namespace Store

/-- The stored objects: key and content. -/
abbrev Store := List (String × List Nat)

/-- Byte-wise order of two strings. -/
def less : List Char → List Char → Bool
  | _, [] => false
  | [], _ :: _ => true
  | a :: as, b :: bs =>
    if a.toNat < b.toNat then true
    else if b.toNat < a.toNat then false
    else less as bs

/-- A put stores the content under the key, replacing what was there. -/
def put (key : String) (body : Option (List Nat)) (st : Store) : Store :=
  (key, body.getD []) :: st.filter (fun kv => kv.1 ≠ key)

/-- A delete removes the key. -/
def delete (key : String) (st : Store) : Store :=
  st.filter (fun kv => kv.1 ≠ key)

/-- The common prefix a key is rolled up into: the key up to and including the
first delimiter after the listing prefix, if there is one. -/
def rollUp (pre delimiter key : String) : Option String :=
  if delimiter.data = [] then none
  else
    match indexOf delimiter.data (key.data.drop pre.data.length) with
    | none => none
    | some j => some (String.mk (key.data.take (pre.data.length + j + delimiter.data.length)))

/-- The entries a listing selects: keys that begin with the prefix and come
after the marker. -/
def selected (opt : Cos.BucketGetOptions) (st : Store) : Store :=
  st.filter (fun kv => HasPrefix kv.1 opt.Prefix && less opt.Marker.data kv.1.data)

/-- The listing of the store for the given options. -/
def get (opt : Cos.BucketGetOptions) (st : Store) : Cos.BucketGetResult :=
  { CommonPrefixes :=
      ((selected opt st).filterMap (fun kv => rollUp opt.Prefix opt.Delimiter kv.1)).dedup
    Contents :=
      ((selected opt st).filter (fun kv => (rollUp opt.Prefix opt.Delimiter kv.1).isNone)).map
        (fun kv => { Key := kv.1, LastModified := "", Size := kv.2.length })
    IsTruncated := false
    NextMarker := "" }

/-- The COS client of the flat key store; no call fails. -/
def client : Cos.Client Store :=
  { BucketGet := fun opt st => (.ok (get opt st), st)
    ObjectDelete := fun key st => (none, delete key st)
    ObjectPut := fun key body st => (none, put key body st) }

end Store

/-! ## Concrete backends used as examples -/

namespace Example

/-- A COS configuration without a custom domain. -/
def cosConfig : Cos.Config :=
  { SecretID := "id", SecretKey := "key", Bucket := "pines-1250000000", Region := "ap-nanjing",
    Domain := "", APIAddress := "", Port := "8080", Default := "", Token := "t", UToken := "u" }

/-- An OSS configuration without a custom domain. -/
def ossConfig : Oss.Config :=
  { Ak := "ak", Sk := "sk", Bucket := "pines", Endpoint := "oss-cn-hangzhou.aliyuncs.com",
    Domain := "", Port := "8080", Default := "", Token := "t", UToken := "u" }

/-- A UPS configuration with a custom domain. -/
def upsConfig : Ups.Config :=
  { Bucket := "pines", Operator := "op", Password := "pw", Domain := "https://cdn.example.com/",
    Port := "8080", Default := "", Token := "t", UToken := "u" }

/-- A COS bucket that holds `docs/a.txt` and `docs/b.txt` and serves one key
per page: the listing from marker `docs/` is truncated after `docs/a.txt`, the
listing from marker `docs/a.txt` holds `docs/b.txt` and is the last. -/
def cosPaged : Cos.Client Unit :=
  { BucketGet := fun opt s =>
      if opt.Marker = "docs/a.txt" then
        (.ok { CommonPrefixes := [], Contents := [⟨"docs/b.txt", "2021-01-02", 7⟩],
               IsTruncated := false, NextMarker := "" }, s)
      else
        (.ok { CommonPrefixes := [], Contents := [⟨"docs/a.txt", "2021-01-01", 5⟩],
               IsTruncated := true, NextMarker := "docs/a.txt" }, s)
    ObjectDelete := fun _ s => (none, s)
    ObjectPut := fun _ _ s => (none, s) }

/-- The first page `cosPaged` serves. -/
def cosPage1 : Cos.BucketGetResult :=
  { CommonPrefixes := [], Contents := [⟨"docs/a.txt", "2021-01-01", 5⟩],
    IsTruncated := true, NextMarker := "docs/a.txt" }

/-- The first page of `ossPaged`. -/
def ossPage1 : Oss.ListObjectsResult :=
  { Prefix := "docs/", NextMarker := "docs/a.txt", CommonPrefixes := ["docs/img/"],
    Objects := [⟨"docs/a.txt", ⟨100⟩, 5⟩], IsTruncated := true }

/-- The second and last page of `ossPaged`. -/
def ossPage2 : Oss.ListObjectsResult :=
  { Prefix := "docs/", NextMarker := "", CommonPrefixes := [],
    Objects := [⟨"docs/b.txt", ⟨200⟩, 7⟩], IsTruncated := false }

/-- An OSS bucket that serves the listing of `docs/` in two pages. -/
def ossPaged : Oss.Bucket Unit :=
  { ListObjects := fun marker _ _ s =>
      if marker = "docs/a.txt" then (.ok ossPage2, s) else (.ok ossPage1, s)
    DeleteObject := fun _ s => (none, s)
    PutObject := fun _ _ s => (none, s) }

/-- The OSS SDK that hands out `ossPaged` for every bucket name. -/
def ossSDK : Oss.SDK Unit :=
  { New := fun _ _ _ => .ok (fun _ => .ok ossPaged) }

/-- The upload of a file named `a.txt` with the form field `prefix=docs/`. -/
def uploadRequest : Request :=
  { query := [("operate", ["upload"])]
    formFile := .ok { Filename := "a.txt", content := [104, 105] }
    multipartForm := some [("prefix", ["docs/"])] }

/-- A COS configuration with a custom domain. -/
def cosConfigCustom : Cos.Config :=
  { SecretID := "id", SecretKey := "key", Bucket := "pines-1250000000", Region := "ap-nanjing",
    Domain := "https://cdn.example.com/", APIAddress := "", Port := "8080", Default := "",
    Token := "t", UToken := "u" }

/-- The environment in which `config.yaml` does not exist. -/
def envMissing {C : Type} : Env C :=
  { readFile := .error "open config.yaml: no such file or directory"
    unmarshal := fun _ => .error "yaml: unmarshal errors" }

/-- The environment in which `config.yaml` holds the three bytes `: :`, which
are not valid YAML for a mapping. -/
def envMalformed {C : Type} : Env C :=
  { readFile := .ok [58, 32, 58]
    unmarshal := fun _ => .error "yaml: line 1: did not find expected key" }

/-- A configuration for misc.go. -/
def miscConfig : Misc.Config :=
  { Port := "8080", Default := "https://pines.example.com/api/cos", Token := "t",
    UToken := "upload-secret" }

/-- An OSS configuration whose `Bucket` is empty. -/
def ossConfigNoBucket : Oss.Config :=
  { Ak := "ak", Sk := "sk", Bucket := "", Endpoint := "oss-cn-hangzhou.aliyuncs.com",
    Domain := "", Port := "8080", Default := "", Token := "t", UToken := "u" }

/-- The OSS SDK with its check of the bucket name: `client.Bucket` fails for the
empty name and hands out `ossPaged` otherwise. -/
def ossSDKChecked : Oss.SDK Unit :=
  { New := fun _ _ _ =>
      .ok (fun name =>
        if name = "" then .error "bucket name  len is between [3-63] now is 0"
        else .ok ossPaged) }

/-- A COS client that does nothing but record the calls made on it. -/
def cosLogging : Cos.Client (List String) :=
  { BucketGet := fun opt log =>
      (.ok { CommonPrefixes := [], Contents := [], IsTruncated := false, NextMarker := "" },
        log ++ ["Bucket.Get " ++ opt.Prefix])
    ObjectDelete := fun key log => (none, log ++ ["Object.Delete " ++ key])
    ObjectPut := fun key _ log => (none, log ++ ["Object.Put " ++ key]) }

/-- A UPS service whose `List` fails at once: nothing is sent on the channel
and the call returns an error. -/
def upsFailing : Ups.UpYun Unit :=
  { Delete := fun _ _ s => (none, s)
    Put := fun _ _ s => (none, s)
    Mkdir := fun _ s => (none, s)
    List := fun _ s => (([], some "list: 401 Unauthorized"), s) }

/-- A UPS service whose directory holds the directory `img` and the file
`a.txt`. -/
def upsDir : Ups.UpYun Unit :=
  { Delete := fun _ _ s => (none, s)
    Put := fun _ _ s => (none, s)
    Mkdir := fun _ s => (none, s)
    List := fun _ s => (([⟨"img", 0, ⟨300⟩, true⟩, ⟨"a.txt", 5, ⟨100⟩, false⟩], none), s) }

end Example

/-- An `Env` whose file reads and deserializes to `c`. -/
def envOf {C : Type} (c : C) : Env C :=
  { readFile := .ok [], unmarshal := fun _ => .ok c }

/-- A request that carries only a query string. -/
def queryOnly (query : Values) : Request :=
  { query := query, formFile := .error "http: no such file", multipartForm := none }

end Pines

namespace Pines

/-! ## Theorems -/

/-- C1 (as stated, refuted): the configuration holds an empty token and the
`/login` request has no `token` parameter at all; the answer is the success
body with code 200, not an error with code 500. -/
theorem C1_missing_token_accepted :
    Values.lookup (queryOnly []).query "token" = [] ∧
    Login.Login (envOf ⟨"8080", "", "", ""⟩) (queryOnly []) ⟨none, none⟩ =
      .done (⟨some (.loginOk 200 "ok" (.str "")), some ⟨"8080", "", "", ""⟩⟩,
        [some (.loginOk 200 "ok" (.str ""))]) := by
  decide

/-- C1 (amended): when the configuration file loads to `c`, `Login` compares
`r.URL.Query().Get("token")` (the empty string when the parameter is missing)
with `c.Token`.  If they differ the only body written is the error struct with
`code` 500 and `errors` "token error" (it has no `message` member); if they are
equal the only body written has `code` 200, `message` "ok" and `data` equal to
the token. -/
theorem C1_login (env : Env Login.Config) (c : Login.Config) (r : Request)
    (pkg : Login.Pkg) (yamlFile : List Nat)
    (hread : env.readFile = .ok yamlFile) (hyaml : env.unmarshal yamlFile = .ok c) :
    (r.query.Get "token" ≠ c.Token →
      Login.Login env r pkg =
        .done ({ response := some (.loginError 500 "token error"), config := some c },
          [some (.loginError 500 "token error")])) ∧
    (r.query.Get "token" = c.Token →
      Login.Login env r pkg =
        .done ({ response := some (.loginOk 200 "ok" (.str c.Token)), config := some c },
          [some (.loginOk 200 "ok" (.str (r.query.Get "token")))])) := by
  constructor
  · intro hne
    simp [Login.Login, Login.TokenAuth, Login.GetConfig, hread, hyaml, hne, Write]
  · intro heq
    simp [Login.Login, Login.TokenAuth, Login.GetConfig, hread, hyaml, heq, Write]

/-- Witness for C1: configured token "s3cret", a request with `token=nope` and a
request with `token=s3cret`. -/
theorem C1_login_witness :
    Login.Login (envOf ⟨"80", "", "s3cret", ""⟩)
        ⟨[("token", ["nope"])], .error "", none⟩ ⟨none, none⟩ =
      .done (⟨some (.loginError 500 "token error"), some ⟨"80", "", "s3cret", ""⟩⟩,
        [some (.loginError 500 "token error")]) ∧
    Login.Login (envOf ⟨"80", "", "s3cret", ""⟩)
        ⟨[("token", ["s3cret"])], .error "", none⟩ ⟨none, none⟩ =
      .done (⟨some (.loginOk 200 "ok" (.str "s3cret")), some ⟨"80", "", "s3cret", ""⟩⟩,
        [some (.loginOk 200 "ok" (.str "s3cret"))]) :=
  ⟨(C1_login (envOf ⟨"80", "", "s3cret", ""⟩) ⟨"80", "", "s3cret", ""⟩
      ⟨[("token", ["nope"])], .error "", none⟩ ⟨none, none⟩ [] rfl rfl).1 (by decide),
   (C1_login (envOf ⟨"80", "", "s3cret", ""⟩) ⟨"80", "", "s3cret", ""⟩
      ⟨[("token", ["s3cret"])], .error "", none⟩ ⟨none, none⟩ [] rfl rfl).2 (by decide)⟩

/-! ### Strings -/

theorem indexOf_of_isPrefixOf (sub s : List Char) (h : sub.isPrefixOf s = true) :
    indexOf sub s = some 0 := by
  cases s with
  | nil => simp [indexOf, h]
  | cons c t => simp [indexOf, h]

theorem Replace_append_left (p r : String) : Replace (p ++ r) p "" 1 = r := by
  by_cases hp : p = ""
  · subst hp
    simp [Replace]
  · have hd : p.data ≠ [] := by
      intro h
      apply hp
      exact String.ext h
    have hpre : p.data.isPrefixOf (p.data ++ r.data) = true := by
      rw [List.isPrefixOf_iff_prefix]
      exact List.prefix_append _ _
    simp [Replace, hp, hd, replaceLoop, indexOf_of_isPrefixOf _ _ hpre]

theorem HasPrefix_iff (s p : String) : HasPrefix s p = true ↔ ∃ r : String, s = p ++ r := by
  unfold HasPrefix
  rw [List.isPrefixOf_iff_prefix]
  constructor
  · rintro ⟨t, ht⟩
    exact ⟨String.mk t, String.ext (by simp [ht])⟩
  · rintro ⟨r, rfl⟩
    exact ⟨r.data, by simp⟩

theorem append_Replace_of_HasPrefix (k p : String) (h : HasPrefix k p = true) :
    p ++ Replace k p "" 1 = k := by
  obtain ⟨r, rfl⟩ := (HasPrefix_iff k p).1 h
  rw [Replace_append_left]

/-! ### The `list` branch of the handlers -/

theorem cosHandler_list {σ : Type} (env : Env Cos.Config)
    (newClient : Cos.Config → Cos.Client σ) (r : Request) (pkg : Cos.Pkg) (s s1 : σ)
    (cfg : Cos.Config) (v : Cos.BucketGetResult)
    (hcfg : Cos.InitCosClient env = .ok cfg)
    (hop : r.query.Get "operate" = "list")
    (hget : (newClient cfg).BucketGet
      { Prefix := r.query.Get "prefix", Delimiter := "/", Marker := r.query.Get "prefix" } s
        = (.ok v, s1)) :
    Cos.CosHandler env newClient r pkg s =
      .done
        { pkg :=
            { CosConfig := some cfg
              response := some (.list
                { Code := 200, Count := (Cos.listResult (r.query.Get "prefix") v).length
                  Message := .str (Cos.domain cfg)
                  Data := Cos.listResult (r.query.Get "prefix") v }) }
          backend := s1
          written := [some (.list
                { Code := 200, Count := (Cos.listResult (r.query.Get "prefix") v).length
                  Message := .str (Cos.domain cfg)
                  Data := Cos.listResult (r.query.Get "prefix") v })] } := by
  simp [Cos.CosHandler, hcfg, hop, hget, Write]

theorem ossListLoop_chain {σ : Type} (B : Oss.Bucket σ) (path : String)
    {maker pre : String} {s s1 : σ} {pages : List Oss.ListObjectsResult}
    (h : Oss.Chain B maker pre s pages s1) :
    ∀ (fuel : Nat) (acc : List ListObject), pages.length ≤ fuel →
      Oss.listLoop B path fuel maker pre acc s =
        some (.ok (acc ++ pages.flatMap (Oss.pageResult path)), s1) := by
  induction h with
  | last hcall htrunc =>
    intro fuel acc hfuel
    cases fuel with
    | zero => simp at hfuel
    | succ n => simp [Oss.listLoop, hcall, htrunc]
  | @more _ _ _ _ _ pg _ hcall htrunc _ ih =>
    intro fuel acc hfuel
    cases fuel with
    | zero => simp at hfuel
    | succ n =>
      have hn := ih n (acc ++ Oss.pageResult path pg) (by simpa using hfuel)
      simp [Oss.listLoop, hcall, htrunc, hn]

theorem ossHandler_list {σ : Type} (env : Env Oss.Config) (sdk : Oss.SDK σ)
    (fuel : Nat) (r : Request) (pkg : Oss.Pkg) (s s1 : σ) (cfg : Oss.Config)
    (B : Oss.Bucket σ) (pages : List Oss.ListObjectsResult)
    (hcfg : Oss.InitOssClient env sdk = .ok (cfg, .inr B))
    (hop : r.query.Get "operate" = "list")
    (hchain : Oss.Chain B (r.query.Get "prefix") (r.query.Get "prefix") s pages s1)
    (hfuel : pages.length ≤ fuel) :
    Oss.OssHandler env sdk fuel r pkg s =
      some (.done
        { pkg :=
            { OssConfig := some cfg
              response := some (.list
                { Code := 200
                  Count := (pages.flatMap (Oss.pageResult (r.query.Get "prefix"))).length
                  Message := .str cfg.Domain
                  Data := pages.flatMap (Oss.pageResult (r.query.Get "prefix")) }) }
          backend := s1
          written := [some (.list
                { Code := 200
                  Count := (pages.flatMap (Oss.pageResult (r.query.Get "prefix"))).length
                  Message := .str cfg.Domain
                  Data := pages.flatMap (Oss.pageResult (r.query.Get "prefix")) })] }) := by
  have hloop := ossListLoop_chain B (r.query.Get "prefix") hchain fuel [] hfuel
  simp [Oss.OssHandler, hcfg, hop, hloop, Write]

theorem upsHandler_list {σ : Type} (env : Env Ups.Config)
    (NewUpYun : Ups.Config → Ups.UpYun σ) (r : Request) (pkg : Ups.Pkg) (s s1 : σ)
    (cfg : Ups.Config) (objs : List Ups.FileInfo) (err : Option String)
    (hcfg : GetConfig env = .ok cfg)
    (hop : r.query.Get "operate" = "list")
    (hlist : (NewUpYun cfg).List (r.query.Get "prefix" ++ "/") s = ((objs, err), s1)) :
    Ups.UpsHandler env NewUpYun r pkg s =
      .done
        { pkg :=
            { UpsConfig := some cfg
              response := some (.list
                { Code := 200, Count := (objs.map (Ups.entry (r.query.Get "prefix" ++ "/"))).length
                  Message := .str cfg.Domain
                  Data := objs.map (Ups.entry (r.query.Get "prefix" ++ "/")) }) }
          backend := s1
          written := [some (.list
                { Code := 200, Count := (objs.map (Ups.entry (r.query.Get "prefix" ++ "/"))).length
                  Message := .str cfg.Domain
                  Data := objs.map (Ups.entry (r.query.Get "prefix" ++ "/")) })] } := by
  simp [Ups.UpsHandler, hcfg, hop, hlist, Write]

/-! ### Entry-wise relations between a listing and the reply -/

theorem forall₂_map_append {α β γ δ : Type} (R : γ → δ → Prop) (as : List α) (bs : List β)
    (f1 : α → γ) (g1 : α → δ) (f2 : β → γ) (g2 : β → δ)
    (h1 : ∀ a ∈ as, R (f1 a) (g1 a)) (h2 : ∀ b ∈ bs, R (f2 b) (g2 b)) :
    List.Forall₂ R (as.map f1 ++ bs.map f2) (as.map g1 ++ bs.map g2) := by
  apply List.rel_append
  · rw [List.forall₂_map_left_iff, List.forall₂_map_right_iff, List.forall₂_same]
    exact h1
  · rw [List.forall₂_map_left_iff, List.forall₂_map_right_iff, List.forall₂_same]
    exact h2

theorem forall₂_flatMap {α γ δ : Type} (R : γ → δ → Prop) (F : α → List γ) (G : α → List δ)
    (h : ∀ a, List.Forall₂ R (F a) (G a)) :
    ∀ l : List α, List.Forall₂ R (l.flatMap F) (l.flatMap G)
  | [] => by simp
  | a :: l => by
    simp only [List.flatMap_cons]
    exact List.rel_append (h a) (forall₂_flatMap R F G h l)

theorem cos_forall₂ (R : String ⊕ Cos.Object → ListObject → Prop) (p : String)
    (hdir : ∀ dirname : String, R (.inl dirname)
      { Filename := Replace dirname p "" 1, CreateTime := .str "", IsDir := true,
        Prefix := p, Size := .null })
    (hobj : ∀ obj : Cos.Object, R (.inr obj)
      { Filename := Replace obj.Key p "" 1, CreateTime := .str obj.LastModified,
        IsDir := false, Prefix := p, Size := .int obj.Size })
    (v : Cos.BucketGetResult) :
    List.Forall₂ R (Cos.reported v) (Cos.listResult p v) := by
  unfold Cos.reported Cos.listResult
  exact forall₂_map_append R _ _ _ _ _ _ (fun a _ => hdir a) (fun b _ => hobj b)

theorem oss_forall₂ (R : String ⊕ Oss.ObjectProperties → ListObject → Prop) (p : String)
    (hdir : ∀ dirname : String, R (.inl dirname)
      { Filename := Replace dirname p "" 1, CreateTime := .time Time.zero, IsDir := true,
        Prefix := p, Size := .null })
    (hobj : ∀ obj : Oss.ObjectProperties, R (.inr obj)
      { Filename := Replace obj.Key p "" 1, CreateTime := .time obj.LastModified,
        IsDir := false, Prefix := p, Size := .int obj.Size })
    (pages : List Oss.ListObjectsResult) :
    List.Forall₂ R (pages.flatMap Oss.reported) (pages.flatMap (Oss.pageResult p)) := by
  apply forall₂_flatMap
  intro pg
  unfold Oss.reported Oss.pageResult
  exact forall₂_map_append R _ _ _ _ _ _ (fun a _ => hdir a) (fun b _ => hobj b)

/-! ### C3 -/

/-- C3: in the `list` operation of COS and of OSS, the entries of the reply
correspond one to one, in order, to the keys and common prefixes the backend
returned (over all pages, for OSS); the `prefix` field of every entry is the
queried prefix `p`, and for every returned key or common prefix `k` that
begins with `p` the entry's `filename` `f` satisfies `p ++ f = k`. -/
theorem C3_list_filename_stripped :
    (∀ {σ : Type} (env : Env Cos.Config) (newClient : Cos.Config → Cos.Client σ)
        (r : Request) (pkg : Cos.Pkg) (s s1 : σ) (cfg : Cos.Config)
        (v : Cos.BucketGetResult),
      Cos.InitCosClient env = .ok cfg →
      r.query.Get "operate" = "list" →
      (newClient cfg).BucketGet
        { Prefix := r.query.Get "prefix", Delimiter := "/", Marker := r.query.Get "prefix" } s
          = (.ok v, s1) →
      ∃ (pkg1 : Cos.Pkg) (l : ListReply),
        Cos.CosHandler env newClient r pkg s =
          .done { pkg := pkg1, backend := s1, written := [some (.list l)] } ∧
        List.Forall₂
          (fun item e => e.Prefix = r.query.Get "prefix" ∧
            (HasPrefix (Cos.keyOf item) (r.query.Get "prefix") = true →
              r.query.Get "prefix" ++ e.Filename = Cos.keyOf item))
          (Cos.reported v) l.Data) ∧
    (∀ {σ : Type} (env : Env Oss.Config) (sdk : Oss.SDK σ) (fuel : Nat)
        (r : Request) (pkg : Oss.Pkg) (s s1 : σ) (cfg : Oss.Config) (B : Oss.Bucket σ)
        (pages : List Oss.ListObjectsResult),
      Oss.InitOssClient env sdk = .ok (cfg, .inr B) →
      r.query.Get "operate" = "list" →
      Oss.Chain B (r.query.Get "prefix") (r.query.Get "prefix") s pages s1 →
      pages.length ≤ fuel →
      ∃ (pkg1 : Oss.Pkg) (l : ListReply),
        Oss.OssHandler env sdk fuel r pkg s =
          some (.done { pkg := pkg1, backend := s1, written := [some (.list l)] }) ∧
        List.Forall₂
          (fun item e => e.Prefix = r.query.Get "prefix" ∧
            (HasPrefix (Oss.keyOf item) (r.query.Get "prefix") = true →
              r.query.Get "prefix" ++ e.Filename = Oss.keyOf item))
          (pages.flatMap Oss.reported) l.Data) := by
  constructor
  · intro σ env newClient r pkg s s1 cfg v hcfg hop hget
    refine ⟨_, _, cosHandler_list env newClient r pkg s s1 cfg v hcfg hop hget, ?_⟩
    apply cos_forall₂
    · intro dirname
      exact ⟨rfl, fun h => append_Replace_of_HasPrefix _ _ h⟩
    · intro obj
      exact ⟨rfl, fun h => append_Replace_of_HasPrefix _ _ h⟩
  · intro σ env sdk fuel r pkg s s1 cfg B pages hcfg hop hchain hfuel
    refine ⟨_, _, ossHandler_list env sdk fuel r pkg s s1 cfg B pages hcfg hop hchain hfuel, ?_⟩
    apply oss_forall₂
    · intro dirname
      exact ⟨rfl, fun h => append_Replace_of_HasPrefix _ _ h⟩
    · intro obj
      exact ⟨rfl, fun h => append_Replace_of_HasPrefix _ _ h⟩

/-- Witness for C3: the flat key store holding `docs/a.txt` and
`docs/img/x.png`, listed through COS with prefix `docs/`, and the two-page OSS
bucket listed with prefix `docs/`. -/
theorem C3_list_filename_stripped_witness :
    (∃ (pkg1 : Cos.Pkg) (l : ListReply),
      Cos.CosHandler (envOf Example.cosConfig) (fun _ => Store.client)
          (queryOnly [("operate", ["list"]), ("prefix", ["docs/"])]) ⟨none, none⟩
          [("docs/a.txt", [1, 2]), ("docs/img/x.png", [3])] =
        .done { pkg := pkg1, backend := [("docs/a.txt", [1, 2]), ("docs/img/x.png", [3])],
                written := [some (.list l)] } ∧
      List.Forall₂
        (fun item e => e.Prefix = "docs/" ∧
          (HasPrefix (Cos.keyOf item) "docs/" = true → "docs/" ++ e.Filename = Cos.keyOf item))
        (Cos.reported (Store.get ⟨"docs/", "/", "docs/"⟩
          [("docs/a.txt", [1, 2]), ("docs/img/x.png", [3])])) l.Data) ∧
    (∃ (pkg1 : Oss.Pkg) (l : ListReply),
      Oss.OssHandler (envOf Example.ossConfig) Example.ossSDK 2
          (queryOnly [("operate", ["list"]), ("prefix", ["docs/"])]) ⟨none, none⟩ () =
        some (.done { pkg := pkg1, backend := (), written := [some (.list l)] }) ∧
      List.Forall₂
        (fun item e => e.Prefix = "docs/" ∧
          (HasPrefix (Oss.keyOf item) "docs/" = true → "docs/" ++ e.Filename = Oss.keyOf item))
        ([Example.ossPage1, Example.ossPage2].flatMap Oss.reported) l.Data) :=
  ⟨C3_list_filename_stripped.1 (envOf Example.cosConfig) (fun _ => Store.client)
      (queryOnly [("operate", ["list"]), ("prefix", ["docs/"])]) ⟨none, none⟩
      [("docs/a.txt", [1, 2]), ("docs/img/x.png", [3])] _ _ _ rfl rfl rfl,
   C3_list_filename_stripped.2 (envOf Example.ossConfig) Example.ossSDK 2
      (queryOnly [("operate", ["list"]), ("prefix", ["docs/"])]) ⟨none, none⟩ () ()
      Example.ossConfig Example.ossPaged [Example.ossPage1, Example.ossPage2] rfl rfl
      (Oss.Chain.more rfl rfl (Oss.Chain.last rfl rfl)) (by decide)⟩

end Pines

namespace Pines

/-! ### C2 -/

theorem HasPrefix_Replace_iff (k p : String) (h : HasPrefix k p = true) :
    HasPrefix (Replace k p "" 1) p = true ↔ HasPrefix k (p ++ p) = true := by
  obtain ⟨r, rfl⟩ := (HasPrefix_iff k p).1 h
  rw [Replace_append_left]
  unfold HasPrefix
  rw [List.isPrefixOf_iff_prefix, List.isPrefixOf_iff_prefix, String.data_append,
    String.data_append, List.prefix_append_right_inj]

/-- C2 (as stated, refuted): the bucket holds `a/a/x.txt` and COS `list` is
queried with prefix `a/`; the store reports the common prefix `a/a/`, and the
entry made from it has the filename `a/`, which begins with the queried
prefix. -/
theorem C2_filename_repeats_queried :
    (Cos.CosHandler (envOf Example.cosConfig) (fun _ => Store.client)
        (queryOnly [("operate", ["list"]), ("prefix", ["a/"])]) ⟨none, none⟩
        [("a/a/x.txt", [1])]).bodies =
      [some (.list
        { Code := 200, Count := 1
          Message := .str "https://pines-1250000000.cos.ap-nanjing.myqcloud.com/"
          Data := [{ Filename := "a/", Prefix := "a/", IsDir := true, Size := .null,
                     CreateTime := .str "" }] })] ∧
    HasPrefix "a/" "a/" = true := by
  decide

/-- C2 (amended): in the `list` operation of COS and of OSS, for every queried
prefix `p` and every returned key or common prefix `k` that begins with `p`,
the entry's `filename` `f` is `k` without its leading `p` (`p ++ f = k`), so it
begins with `p` exactly when `k` begins with `p ++ p` (always when `p` is
empty).  In the `list` operation of UPS nothing is
stripped: the `filename` is the name the backend reports, followed by `/` for a
directory, and `prefix` is the queried prefix followed by `/`. -/
theorem C2_list_filename_relative :
    (∀ {σ : Type} (env : Env Cos.Config) (newClient : Cos.Config → Cos.Client σ)
        (r : Request) (pkg : Cos.Pkg) (s s1 : σ) (cfg : Cos.Config)
        (v : Cos.BucketGetResult),
      Cos.InitCosClient env = .ok cfg →
      r.query.Get "operate" = "list" →
      (newClient cfg).BucketGet
        { Prefix := r.query.Get "prefix", Delimiter := "/", Marker := r.query.Get "prefix" } s
          = (.ok v, s1) →
      ∃ (pkg1 : Cos.Pkg) (l : ListReply),
        Cos.CosHandler env newClient r pkg s =
          .done { pkg := pkg1, backend := s1, written := [some (.list l)] } ∧
        List.Forall₂
          (fun item e =>
            HasPrefix (Cos.keyOf item) (r.query.Get "prefix") = true →
              r.query.Get "prefix" ++ e.Filename = Cos.keyOf item ∧
              (HasPrefix e.Filename (r.query.Get "prefix") = true ↔
                HasPrefix (Cos.keyOf item) (r.query.Get "prefix" ++ r.query.Get "prefix") = true))
          (Cos.reported v) l.Data) ∧
    (∀ {σ : Type} (env : Env Oss.Config) (sdk : Oss.SDK σ) (fuel : Nat)
        (r : Request) (pkg : Oss.Pkg) (s s1 : σ) (cfg : Oss.Config) (B : Oss.Bucket σ)
        (pages : List Oss.ListObjectsResult),
      Oss.InitOssClient env sdk = .ok (cfg, .inr B) →
      r.query.Get "operate" = "list" →
      Oss.Chain B (r.query.Get "prefix") (r.query.Get "prefix") s pages s1 →
      pages.length ≤ fuel →
      ∃ (pkg1 : Oss.Pkg) (l : ListReply),
        Oss.OssHandler env sdk fuel r pkg s =
          some (.done { pkg := pkg1, backend := s1, written := [some (.list l)] }) ∧
        List.Forall₂
          (fun item e =>
            HasPrefix (Oss.keyOf item) (r.query.Get "prefix") = true →
              r.query.Get "prefix" ++ e.Filename = Oss.keyOf item ∧
              (HasPrefix e.Filename (r.query.Get "prefix") = true ↔
                HasPrefix (Oss.keyOf item) (r.query.Get "prefix" ++ r.query.Get "prefix") = true))
          (pages.flatMap Oss.reported) l.Data) ∧
    (∀ {σ : Type} (env : Env Ups.Config) (NewUpYun : Ups.Config → Ups.UpYun σ)
        (r : Request) (pkg : Ups.Pkg) (s s1 : σ) (cfg : Ups.Config)
        (objs : List Ups.FileInfo) (err : Option String),
      GetConfig env = .ok cfg →
      r.query.Get "operate" = "list" →
      (NewUpYun cfg).List (r.query.Get "prefix" ++ "/") s = ((objs, err), s1) →
      ∃ (pkg1 : Ups.Pkg) (l : ListReply),
        Ups.UpsHandler env NewUpYun r pkg s =
          .done { pkg := pkg1, backend := s1, written := [some (.list l)] } ∧
        List.Forall₂
          (fun obj e =>
            e.Filename = (if obj.IsDir then obj.Name ++ "/" else obj.Name) ∧
            e.Prefix = r.query.Get "prefix" ++ "/")
          objs l.Data) := by
  refine ⟨?_, ?_, ?_⟩
  · intro σ env newClient r pkg s s1 cfg v hcfg hop hget
    refine ⟨_, _, cosHandler_list env newClient r pkg s s1 cfg v hcfg hop hget, ?_⟩
    apply cos_forall₂
    · intro dirname h
      exact ⟨append_Replace_of_HasPrefix _ _ h, HasPrefix_Replace_iff _ _ h⟩
    · intro obj h
      exact ⟨append_Replace_of_HasPrefix _ _ h, HasPrefix_Replace_iff _ _ h⟩
  · intro σ env sdk fuel r pkg s s1 cfg B pages hcfg hop hchain hfuel
    refine ⟨_, _, ossHandler_list env sdk fuel r pkg s s1 cfg B pages hcfg hop hchain hfuel, ?_⟩
    apply oss_forall₂
    · intro dirname h
      exact ⟨append_Replace_of_HasPrefix _ _ h, HasPrefix_Replace_iff _ _ h⟩
    · intro obj h
      exact ⟨append_Replace_of_HasPrefix _ _ h, HasPrefix_Replace_iff _ _ h⟩
  · intro σ env NewUpYun r pkg s s1 cfg objs err hcfg hop hlist
    refine ⟨_, _, upsHandler_list env NewUpYun r pkg s s1 cfg objs err hcfg hop hlist, ?_⟩
    rw [List.forall₂_map_right_iff, List.forall₂_same]
    intro obj _
    exact ⟨rfl, rfl⟩

/-- Witness for C2: the flat key store holding `a/a/x.txt` and `a/b.txt` listed
through COS with prefix `a/`, the two-page OSS bucket listed with prefix
`docs/`, and a UPS directory holding `img` and `a.txt`. -/
theorem C2_list_filename_relative_witness :
    (∃ (pkg1 : Cos.Pkg) (l : ListReply),
      Cos.CosHandler (envOf Example.cosConfig) (fun _ => Store.client)
          (queryOnly [("operate", ["list"]), ("prefix", ["a/"])]) ⟨none, none⟩
          [("a/a/x.txt", [1]), ("a/b.txt", [])] =
        .done { pkg := pkg1, backend := [("a/a/x.txt", [1]), ("a/b.txt", [])],
                written := [some (.list l)] } ∧
      List.Forall₂
        (fun item e =>
          HasPrefix (Cos.keyOf item) "a/" = true →
            "a/" ++ e.Filename = Cos.keyOf item ∧
            (HasPrefix e.Filename "a/" = true ↔ HasPrefix (Cos.keyOf item) ("a/" ++ "a/") = true))
        (Cos.reported (Store.get ⟨"a/", "/", "a/"⟩ [("a/a/x.txt", [1]), ("a/b.txt", [])]))
        l.Data) ∧
    (∃ (pkg1 : Oss.Pkg) (l : ListReply),
      Oss.OssHandler (envOf Example.ossConfig) Example.ossSDK 2
          (queryOnly [("operate", ["list"]), ("prefix", ["docs/"])]) ⟨none, none⟩ () =
        some (.done { pkg := pkg1, backend := (), written := [some (.list l)] }) ∧
      List.Forall₂
        (fun item e =>
          HasPrefix (Oss.keyOf item) "docs/" = true →
            "docs/" ++ e.Filename = Oss.keyOf item ∧
            (HasPrefix e.Filename "docs/" = true ↔
              HasPrefix (Oss.keyOf item) ("docs/" ++ "docs/") = true))
        ([Example.ossPage1, Example.ossPage2].flatMap Oss.reported) l.Data) ∧
    (∃ (pkg1 : Ups.Pkg) (l : ListReply),
      Ups.UpsHandler (envOf Example.upsConfig) (fun _ => Example.upsDir)
          (queryOnly [("operate", ["list"]), ("prefix", ["docs"])]) ⟨none, none⟩ () =
        .done { pkg := pkg1, backend := (), written := [some (.list l)] } ∧
      List.Forall₂
        (fun (obj : Ups.FileInfo) (e : ListObject) =>
          e.Filename = (if obj.IsDir then obj.Name ++ "/" else obj.Name) ∧
          e.Prefix = "docs" ++ "/")
        [⟨"img", 0, ⟨300⟩, true⟩, ⟨"a.txt", 5, ⟨100⟩, false⟩] l.Data) :=
  ⟨C2_list_filename_relative.1 (envOf Example.cosConfig) (fun _ => Store.client)
      (queryOnly [("operate", ["list"]), ("prefix", ["a/"])]) ⟨none, none⟩
      [("a/a/x.txt", [1]), ("a/b.txt", [])] _ _ _ rfl rfl rfl,
   C2_list_filename_relative.2.1 (envOf Example.ossConfig) Example.ossSDK 2
      (queryOnly [("operate", ["list"]), ("prefix", ["docs/"])]) ⟨none, none⟩ () ()
      Example.ossConfig Example.ossPaged [Example.ossPage1, Example.ossPage2] rfl rfl
      (Oss.Chain.more rfl rfl (Oss.Chain.last rfl rfl)) (by decide),
   C2_list_filename_relative.2.2 (envOf Example.upsConfig) (fun _ => Example.upsDir)
      (queryOnly [("operate", ["list"]), ("prefix", ["docs"])]) ⟨none, none⟩ () ()
      Example.upsConfig _ none rfl rfl rfl⟩

end Pines

namespace Pines

/-! ### The `upload` and `domain` branches of the handlers -/

theorem cosHandler_upload {σ : Type} (env : Env Cos.Config)
    (newClient : Cos.Config → Cos.Client σ) (r : Request) (pkg : Cos.Pkg) (s s1 : σ)
    (cfg : Cos.Config) (header : FileHeader)
    (hcfg : Cos.InitCosClient env = .ok cfg)
    (hop : r.query.Get "operate" = "upload")
    (hfile : r.formFile = .ok header)
    (hput : (newClient cfg).ObjectPut (uploadPrefix r ++ header.Filename)
      (some header.content) s = (none, s1)) :
    Cos.CosHandler env newClient r pkg s =
      .done
        { pkg :=
            { CosConfig := some cfg
              response := some (.response
                { Code := 200, Message := .str "ok"
                  Data := .str (Cos.domain cfg ++ uploadPrefix r ++ header.Filename) }) }
          backend := s1
          written := [some (.response
                { Code := 200, Message := .str "ok"
                  Data := .str (Cos.domain cfg ++ uploadPrefix r ++ header.Filename) })] } := by
  simp [Cos.CosHandler, hcfg, hop, hfile, hput, Write]

theorem ossHandler_upload {σ : Type} (env : Env Oss.Config) (sdk : Oss.SDK σ)
    (fuel : Nat) (r : Request) (pkg : Oss.Pkg) (s s1 : σ) (cfg : Oss.Config)
    (B : Oss.Bucket σ) (header : FileHeader)
    (hcfg : Oss.InitOssClient env sdk = .ok (cfg, .inr B))
    (hop : r.query.Get "operate" = "upload")
    (hfile : r.formFile = .ok header)
    (hput : B.PutObject (uploadPrefix r ++ header.Filename) (some header.content) s
      = (none, s1)) :
    Oss.OssHandler env sdk fuel r pkg s =
      some (.done
        { pkg :=
            { OssConfig := some cfg
              response := some (.response
                { Code := 200, Message := .str "ok"
                  Data := .str (cfg.Domain ++ uploadPrefix r ++ header.Filename) }) }
          backend := s1
          written := [some (.response
                { Code := 200, Message := .str "ok"
                  Data := .str (cfg.Domain ++ uploadPrefix r ++ header.Filename) })] }) := by
  simp [Oss.OssHandler, hcfg, hop, hfile, hput, Write]

theorem upsHandler_upload {σ : Type} (env : Env Ups.Config)
    (NewUpYun : Ups.Config → Ups.UpYun σ) (r : Request) (pkg : Ups.Pkg) (s s1 : σ)
    (cfg : Ups.Config) (header : FileHeader)
    (hcfg : GetConfig env = .ok cfg)
    (hop : r.query.Get "operate" = "upload")
    (hfile : r.formFile = .ok header)
    (hput : (NewUpYun cfg).Put (uploadPrefix r ++ header.Filename) header.content s
      = (none, s1)) :
    Ups.UpsHandler env NewUpYun r pkg s =
      .done
        { pkg :=
            { UpsConfig := some cfg
              response := some (.response
                { Code := 200, Message := .str "ok"
                  Data := .str (cfg.Domain ++ uploadPrefix r ++ header.Filename) }) }
          backend := s1
          written := [some (.response
                { Code := 200, Message := .str "ok"
                  Data := .str (cfg.Domain ++ uploadPrefix r ++ header.Filename) })] } := by
  simp [Ups.UpsHandler, hcfg, hop, hfile, hput, Write]

theorem cosHandler_domain {σ : Type} (env : Env Cos.Config)
    (newClient : Cos.Config → Cos.Client σ) (r : Request) (pkg : Cos.Pkg) (s : σ)
    (cfg : Cos.Config)
    (hcfg : Cos.InitCosClient env = .ok cfg)
    (hop : r.query.Get "operate" = "domain") :
    Cos.CosHandler env newClient r pkg s =
      .done
        { pkg :=
            { CosConfig := some cfg
              response := some (.response
                { Code := 200, Message := .str (Cos.domain cfg), Data := .null }) }
          backend := s
          written := [some (.response
                { Code := 200, Message := .str (Cos.domain cfg), Data := .null })] } := by
  simp [Cos.CosHandler, hcfg, hop, Write]

theorem ossHandler_domain {σ : Type} (env : Env Oss.Config) (sdk : Oss.SDK σ)
    (fuel : Nat) (r : Request) (pkg : Oss.Pkg) (s : σ) (cfg : Oss.Config)
    (B : Oss.Bucket σ)
    (hcfg : Oss.InitOssClient env sdk = .ok (cfg, .inr B))
    (hop : r.query.Get "operate" = "domain") :
    Oss.OssHandler env sdk fuel r pkg s =
      some (.done
        { pkg :=
            { OssConfig := some cfg
              response := some (.response
                { Code := 200, Message := .str cfg.Domain, Data := .null }) }
          backend := s
          written := [some (.response
                { Code := 200, Message := .str cfg.Domain, Data := .null })] }) := by
  simp [Oss.OssHandler, hcfg, hop, Write]

theorem upsHandler_domain {σ : Type} (env : Env Ups.Config)
    (NewUpYun : Ups.Config → Ups.UpYun σ) (r : Request) (pkg : Ups.Pkg) (s : σ)
    (cfg : Ups.Config)
    (hcfg : GetConfig env = .ok cfg)
    (hop : r.query.Get "operate" = "domain") :
    Ups.UpsHandler env NewUpYun r pkg s =
      .done
        { pkg :=
            { UpsConfig := some cfg
              response := some (.response
                { Code := 200, Message := .str cfg.Domain, Data := .null }) }
          backend := s
          written := [some (.response
                { Code := 200, Message := .str cfg.Domain, Data := .null })] } := by
  simp [Ups.UpsHandler, hcfg, hop, Write]

end Pines

namespace Pines

/-! ### C4 -/

/-- C4 (as stated, refuted): a COS configuration whose custom domain is empty;
the upload of `a.txt` with `prefix=docs/` answers with `data` equal to the
computed API address followed by `/docs/a.txt`, not with the configured domain
followed by `docs/a.txt`. -/
theorem C4_cos_upload_without_custom_domain :
    Example.cosConfig.Domain = "" ∧
    (Cos.CosHandler (envOf Example.cosConfig) (fun _ => Store.client)
        Example.uploadRequest ⟨none, none⟩ []).bodies =
      [some (.response
        { Code := 200, Message := .str "ok"
          Data := .str "https://pines-1250000000.cos.ap-nanjing.myqcloud.com/docs/a.txt" })] ∧
    Value.str "https://pines-1250000000.cos.ap-nanjing.myqcloud.com/docs/a.txt" ≠
      Value.str (Example.cosConfig.Domain ++ "docs/" ++ "a.txt") := by
  decide

/-- C4 (amended): for COS, OSS and UPS, with `n` the uploaded file name and `p`
the first value of the multipart field `prefix` (the empty string when the form
or the field is absent), an upload whose SDK put succeeds leaves the backend in
the state that the put of key `p ++ n` produces, and the only body written has
code 200 and `data` equal to `base ++ p ++ n`.  For OSS and UPS `base` is the
configured `Domain`.  For COS `base` is the configured `Domain` when it is not
empty, and otherwise the API address
`https://<Bucket>.cos.<Region>.myqcloud.com` followed by `/`. -/
theorem C4_upload_key_and_url :
    (∀ r : Request,
      (r.multipartForm = none → uploadPrefix r = "") ∧
      (∀ form, r.multipartForm = some form → Values.lookup form "prefix" = [] →
        uploadPrefix r = "") ∧
      (∀ form p rest, r.multipartForm = some form →
        Values.lookup form "prefix" = p :: rest → uploadPrefix r = p)) ∧
    (∀ {σ : Type} (env : Env Cos.Config) (newClient : Cos.Config → Cos.Client σ)
        (r : Request) (pkg : Cos.Pkg) (s s1 : σ) (cfg : Cos.Config) (header : FileHeader),
      Cos.InitCosClient env = .ok cfg →
      r.query.Get "operate" = "upload" →
      r.formFile = .ok header →
      (newClient cfg).ObjectPut (uploadPrefix r ++ header.Filename) (some header.content) s
        = (none, s1) →
      cfg.APIAddress = "https://" ++ cfg.Bucket ++ ".cos." ++ cfg.Region ++ ".myqcloud.com" ∧
      ∃ pkg1 : Cos.Pkg,
        Cos.CosHandler env newClient r pkg s =
          .done { pkg := pkg1, backend := s1,
                  written := [some (.response
                    { Code := 200, Message := .str "ok"
                      Data := .str
                        ((if cfg.Domain = "" then cfg.APIAddress ++ "/" else cfg.Domain) ++
                          uploadPrefix r ++ header.Filename) })] }) ∧
    (∀ {σ : Type} (env : Env Oss.Config) (sdk : Oss.SDK σ) (fuel : Nat)
        (r : Request) (pkg : Oss.Pkg) (s s1 : σ) (cfg : Oss.Config) (B : Oss.Bucket σ)
        (header : FileHeader),
      Oss.InitOssClient env sdk = .ok (cfg, .inr B) →
      r.query.Get "operate" = "upload" →
      r.formFile = .ok header →
      B.PutObject (uploadPrefix r ++ header.Filename) (some header.content) s = (none, s1) →
      ∃ pkg1 : Oss.Pkg,
        Oss.OssHandler env sdk fuel r pkg s =
          some (.done
            { pkg := pkg1, backend := s1,
              written := [some (.response
                { Code := 200, Message := .str "ok"
                  Data := .str (cfg.Domain ++ uploadPrefix r ++ header.Filename) })] })) ∧
    (∀ {σ : Type} (env : Env Ups.Config) (NewUpYun : Ups.Config → Ups.UpYun σ)
        (r : Request) (pkg : Ups.Pkg) (s s1 : σ) (cfg : Ups.Config) (header : FileHeader),
      GetConfig env = .ok cfg →
      r.query.Get "operate" = "upload" →
      r.formFile = .ok header →
      (NewUpYun cfg).Put (uploadPrefix r ++ header.Filename) header.content s = (none, s1) →
      ∃ pkg1 : Ups.Pkg,
        Ups.UpsHandler env NewUpYun r pkg s =
          .done { pkg := pkg1, backend := s1,
                  written := [some (.response
                    { Code := 200, Message := .str "ok"
                      Data := .str (cfg.Domain ++ uploadPrefix r ++ header.Filename) })] }) := by
  refine ⟨?_, ?_, ?_, ?_⟩
  · intro r
    refine ⟨?_, ?_, ?_⟩
    · intro h
      simp [uploadPrefix, h]
    · intro form h hl
      simp [uploadPrefix, h, hl]
    · intro form p rest h hl
      simp [uploadPrefix, h, hl]
  · intro σ env newClient r pkg s s1 cfg header hcfg hop hfile hput
    refine ⟨?_, ⟨_, cosHandler_upload env newClient r pkg s s1 cfg header hcfg hop hfile hput⟩⟩
    unfold Cos.InitCosClient at hcfg
    cases hg : GetConfig env with
    | error msg => simp [hg] at hcfg
    | ok cfg0 =>
      simp only [hg, Except.ok.injEq] at hcfg
      subst hcfg
      rfl
  · intro σ env sdk fuel r pkg s s1 cfg B header hcfg hop hfile hput
    exact ⟨_, ossHandler_upload env sdk fuel r pkg s s1 cfg B header hcfg hop hfile hput⟩
  · intro σ env NewUpYun r pkg s s1 cfg header hcfg hop hfile hput
    exact ⟨_, upsHandler_upload env NewUpYun r pkg s s1 cfg header hcfg hop hfile hput⟩

/-- Witness for C4: the file `a.txt` uploaded with `prefix=docs/` into the empty
flat key store through COS, once with the custom domain
`https://cdn.example.com/` and once without a custom domain, then through OSS
and through UPS. -/
theorem C4_upload_key_and_url_witness :
    uploadPrefix Example.uploadRequest = "docs/" ∧
    (∃ pkg1 : Cos.Pkg,
      Cos.CosHandler (envOf Example.cosConfigCustom) (fun _ => Store.client)
          Example.uploadRequest ⟨none, none⟩ [] =
        .done { pkg := pkg1, backend := [("docs/a.txt", [104, 105])],
                written := [some (.response
                  { Code := 200, Message := .str "ok"
                    Data := .str "https://cdn.example.com/docs/a.txt" })] }) ∧
    (∃ pkg1 : Cos.Pkg,
      Cos.CosHandler (envOf Example.cosConfig) (fun _ => Store.client)
          Example.uploadRequest ⟨none, none⟩ [] =
        .done { pkg := pkg1, backend := [("docs/a.txt", [104, 105])],
                written := [some (.response
                  { Code := 200, Message := .str "ok"
                    Data := .str
                      "https://pines-1250000000.cos.ap-nanjing.myqcloud.com/docs/a.txt" })] }) ∧
    (∃ pkg1 : Oss.Pkg,
      Oss.OssHandler (envOf Example.ossConfig) Example.ossSDK 0
          Example.uploadRequest ⟨none, none⟩ () =
        some (.done
          { pkg := pkg1, backend := (),
            written := [some (.response
              { Code := 200, Message := .str "ok"
                Data := .str ("" ++ "docs/" ++ "a.txt") })] })) ∧
    (∃ pkg1 : Ups.Pkg,
      Ups.UpsHandler (envOf Example.upsConfig) (fun _ => Example.upsDir)
          Example.uploadRequest ⟨none, none⟩ () =
        .done { pkg := pkg1, backend := (),
                written := [some (.response
                  { Code := 200, Message := .str "ok"
                    Data := .str ("https://cdn.example.com/" ++ "docs/" ++ "a.txt") })] }) :=
  ⟨(C4_upload_key_and_url.1 Example.uploadRequest).2.2 [("prefix", ["docs/"])] "docs/" [] rfl rfl,
   (C4_upload_key_and_url.2.1 (envOf Example.cosConfigCustom) (fun _ => Store.client)
      Example.uploadRequest ⟨none, none⟩ [] [("docs/a.txt", [104, 105])] _
      ⟨"a.txt", [104, 105]⟩ rfl rfl rfl rfl).2,
   (C4_upload_key_and_url.2.1 (envOf Example.cosConfig) (fun _ => Store.client)
      Example.uploadRequest ⟨none, none⟩ [] [("docs/a.txt", [104, 105])] _
      ⟨"a.txt", [104, 105]⟩ rfl rfl rfl rfl).2,
   C4_upload_key_and_url.2.2.1 (envOf Example.ossConfig) Example.ossSDK 0
      Example.uploadRequest ⟨none, none⟩ () () Example.ossConfig Example.ossPaged
      ⟨"a.txt", [104, 105]⟩ rfl rfl rfl rfl,
   C4_upload_key_and_url.2.2.2 (envOf Example.upsConfig) (fun _ => Example.upsDir)
      Example.uploadRequest ⟨none, none⟩ () () Example.upsConfig
      ⟨"a.txt", [104, 105]⟩ rfl rfl rfl rfl⟩

end Pines

namespace Pines

/-! ### C5 -/

/-- C5 (as stated, refuted): an OSS configuration with an empty custom domain
and the endpoint `oss-cn-hangzhou.aliyuncs.com`; `domain` answers with the empty
string as `message`, and an upload of `a.txt` with `prefix=docs/` answers with
`data` equal to `docs/a.txt`: the endpoint is not used. -/
theorem C5_oss_empty_domain_not_endpoint :
    Example.ossConfig.Domain = "" ∧
    Example.ossConfig.Endpoint = "oss-cn-hangzhou.aliyuncs.com" ∧
    (Oss.OssHandler (envOf Example.ossConfig) Example.ossSDK 0
        (queryOnly [("operate", ["domain"])]) ⟨none, none⟩ ()).map Outcome.bodies =
      some [some (.response { Code := 200, Message := .str "", Data := .null })] ∧
    (Oss.OssHandler (envOf Example.ossConfig) Example.ossSDK 0
        Example.uploadRequest ⟨none, none⟩ ()).map Outcome.bodies =
      some [some (.response { Code := 200, Message := .str "ok", Data := .str "docs/a.txt" })] := by
  decide

/-- C5 (amended): for COS the public base URL that `domain` returns as
`message` and that `upload` puts in front of `prefix + filename` is the custom
domain when it is not empty, and otherwise the API address
`https://<Bucket>.cos.<Region>.myqcloud.com` computed from the configuration,
followed by `/`.  For OSS and UPS it is the configured custom domain in every
case, the empty string when none is configured. -/
theorem C5_public_base_url :
    (∀ {σ : Type} (env : Env Cos.Config) (newClient : Cos.Config → Cos.Client σ)
        (r : Request) (pkg : Cos.Pkg) (s : σ) (cfg : Cos.Config),
      Cos.InitCosClient env = .ok cfg →
      cfg.APIAddress = "https://" ++ cfg.Bucket ++ ".cos." ++ cfg.Region ++ ".myqcloud.com" ∧
      (r.query.Get "operate" = "domain" →
        (Cos.CosHandler env newClient r pkg s).bodies =
          [some (.response
            { Code := 200
              Message := .str (if cfg.Domain = "" then cfg.APIAddress ++ "/" else cfg.Domain)
              Data := .null })]) ∧
      (∀ (header : FileHeader) (s1 : σ),
        r.query.Get "operate" = "upload" →
        r.formFile = .ok header →
        (newClient cfg).ObjectPut (uploadPrefix r ++ header.Filename) (some header.content) s
          = (none, s1) →
        (Cos.CosHandler env newClient r pkg s).bodies =
          [some (.response
            { Code := 200, Message := .str "ok"
              Data := .str ((if cfg.Domain = "" then cfg.APIAddress ++ "/" else cfg.Domain) ++
                uploadPrefix r ++ header.Filename) })])) ∧
    (∀ {σ : Type} (env : Env Oss.Config) (sdk : Oss.SDK σ) (fuel : Nat)
        (r : Request) (pkg : Oss.Pkg) (s : σ) (cfg : Oss.Config) (B : Oss.Bucket σ),
      Oss.InitOssClient env sdk = .ok (cfg, .inr B) →
      (r.query.Get "operate" = "domain" →
        (Oss.OssHandler env sdk fuel r pkg s).map Outcome.bodies =
          some [some (.response { Code := 200, Message := .str cfg.Domain, Data := .null })]) ∧
      (∀ (header : FileHeader) (s1 : σ),
        r.query.Get "operate" = "upload" →
        r.formFile = .ok header →
        B.PutObject (uploadPrefix r ++ header.Filename) (some header.content) s = (none, s1) →
        (Oss.OssHandler env sdk fuel r pkg s).map Outcome.bodies =
          some [some (.response
            { Code := 200, Message := .str "ok"
              Data := .str (cfg.Domain ++ uploadPrefix r ++ header.Filename) })])) ∧
    (∀ {σ : Type} (env : Env Ups.Config) (NewUpYun : Ups.Config → Ups.UpYun σ)
        (r : Request) (pkg : Ups.Pkg) (s : σ) (cfg : Ups.Config),
      GetConfig env = .ok cfg →
      (r.query.Get "operate" = "domain" →
        (Ups.UpsHandler env NewUpYun r pkg s).bodies =
          [some (.response { Code := 200, Message := .str cfg.Domain, Data := .null })]) ∧
      (∀ (header : FileHeader) (s1 : σ),
        r.query.Get "operate" = "upload" →
        r.formFile = .ok header →
        (NewUpYun cfg).Put (uploadPrefix r ++ header.Filename) header.content s = (none, s1) →
        (Ups.UpsHandler env NewUpYun r pkg s).bodies =
          [some (.response
            { Code := 200, Message := .str "ok"
              Data := .str (cfg.Domain ++ uploadPrefix r ++ header.Filename) })])) := by
  refine ⟨?_, ?_, ?_⟩
  · intro σ env newClient r pkg s cfg hcfg
    refine ⟨?_, ?_, ?_⟩
    · unfold Cos.InitCosClient at hcfg
      cases hg : GetConfig env with
      | error msg => simp [hg] at hcfg
      | ok cfg0 =>
        simp only [hg, Except.ok.injEq] at hcfg
        subst hcfg
        rfl
    · intro hop
      rw [cosHandler_domain env newClient r pkg s cfg hcfg hop]
      rfl
    · intro header s1 hop hfile hput
      rw [cosHandler_upload env newClient r pkg s s1 cfg header hcfg hop hfile hput]
      rfl
  · intro σ env sdk fuel r pkg s cfg B hcfg
    refine ⟨?_, ?_⟩
    · intro hop
      rw [ossHandler_domain env sdk fuel r pkg s cfg B hcfg hop]
      rfl
    · intro header s1 hop hfile hput
      rw [ossHandler_upload env sdk fuel r pkg s s1 cfg B header hcfg hop hfile hput]
      rfl
  · intro σ env NewUpYun r pkg s cfg hcfg
    refine ⟨?_, ?_⟩
    · intro hop
      rw [upsHandler_domain env NewUpYun r pkg s cfg hcfg hop]
      rfl
    · intro header s1 hop hfile hput
      rw [upsHandler_upload env NewUpYun r pkg s s1 cfg header hcfg hop hfile hput]
      rfl

/-- Witness for C5: `domain` and the upload of `a.txt` with `prefix=docs/`, for
a COS configuration without custom domain, an OSS configuration without custom
domain and a UPS configuration with the custom domain
`https://cdn.example.com/`. -/
theorem C5_public_base_url_witness :
    ((Cos.CosHandler (envOf Example.cosConfig) (fun _ => Store.client)
        (queryOnly [("operate", ["domain"])]) ⟨none, none⟩ []).bodies =
      [some (.response
        { Code := 200
          Message := .str "https://pines-1250000000.cos.ap-nanjing.myqcloud.com/"
          Data := .null })] ∧
     (Cos.CosHandler (envOf Example.cosConfig) (fun _ => Store.client)
        Example.uploadRequest ⟨none, none⟩ []).bodies =
      [some (.response
        { Code := 200, Message := .str "ok"
          Data := .str "https://pines-1250000000.cos.ap-nanjing.myqcloud.com/docs/a.txt" })]) ∧
    ((Oss.OssHandler (envOf Example.ossConfig) Example.ossSDK 0
        (queryOnly [("operate", ["domain"])]) ⟨none, none⟩ ()).map Outcome.bodies =
      some [some (.response { Code := 200, Message := .str "", Data := .null })] ∧
     (Oss.OssHandler (envOf Example.ossConfig) Example.ossSDK 0
        Example.uploadRequest ⟨none, none⟩ ()).map Outcome.bodies =
      some [some (.response
        { Code := 200, Message := .str "ok", Data := .str "docs/a.txt" })]) ∧
    ((Ups.UpsHandler (envOf Example.upsConfig) (fun _ => Example.upsDir)
        (queryOnly [("operate", ["domain"])]) ⟨none, none⟩ ()).bodies =
      [some (.response
        { Code := 200, Message := .str "https://cdn.example.com/", Data := .null })] ∧
     (Ups.UpsHandler (envOf Example.upsConfig) (fun _ => Example.upsDir)
        Example.uploadRequest ⟨none, none⟩ ()).bodies =
      [some (.response
        { Code := 200, Message := .str "ok"
          Data := .str "https://cdn.example.com/docs/a.txt" })]) :=
  ⟨⟨(C5_public_base_url.1 (envOf Example.cosConfig) (fun _ => Store.client)
        (queryOnly [("operate", ["domain"])]) ⟨none, none⟩ [] _ rfl).2.1 rfl,
    (C5_public_base_url.1 (envOf Example.cosConfig) (fun _ => Store.client)
        Example.uploadRequest ⟨none, none⟩ [] _ rfl).2.2 ⟨"a.txt", [104, 105]⟩
        [("docs/a.txt", [104, 105])] rfl rfl rfl⟩,
   ⟨(C5_public_base_url.2.1 (envOf Example.ossConfig) Example.ossSDK 0
        (queryOnly [("operate", ["domain"])]) ⟨none, none⟩ () Example.ossConfig
        Example.ossPaged rfl).1 rfl,
    (C5_public_base_url.2.1 (envOf Example.ossConfig) Example.ossSDK 0
        Example.uploadRequest ⟨none, none⟩ () Example.ossConfig
        Example.ossPaged rfl).2 ⟨"a.txt", [104, 105]⟩ () rfl rfl rfl⟩,
   ⟨(C5_public_base_url.2.2 (envOf Example.upsConfig) (fun _ => Example.upsDir)
        (queryOnly [("operate", ["domain"])]) ⟨none, none⟩ () Example.upsConfig rfl).1 rfl,
    (C5_public_base_url.2.2 (envOf Example.upsConfig) (fun _ => Example.upsDir)
        Example.uploadRequest ⟨none, none⟩ () Example.upsConfig rfl).2
        ⟨"a.txt", [104, 105]⟩ () rfl rfl rfl⟩⟩

end Pines

namespace Pines

/-! ### C6 -/

/-- C6 (evaluation at the failing input): the COS bucket `Example.cosPaged`
serves the listing of `docs/` in two pages, the first one truncated with the
marker `docs/a.txt`.  `CosHandler` makes one `Bucket.Get` call and answers with
code 200, `count` 1 and the entry of the first page only; `docs/b.txt` of the
second page is missing from the reply. -/
theorem C6_cos_list_stops_after_first_page :
    Example.cosPaged.BucketGet ⟨"docs/", "/", "docs/"⟩ () = (.ok Example.cosPage1, ()) ∧
    Example.cosPage1.IsTruncated = true ∧
    Example.cosPaged.BucketGet ⟨"docs/", "/", Example.cosPage1.NextMarker⟩ () =
      (.ok { CommonPrefixes := [], Contents := [⟨"docs/b.txt", "2021-01-02", 7⟩],
             IsTruncated := false, NextMarker := "" }, ()) ∧
    (Cos.CosHandler (envOf Example.cosConfig) (fun _ => Example.cosPaged)
        (queryOnly [("operate", ["list"]), ("prefix", ["docs/"])]) ⟨none, none⟩ ()).bodies =
      [some (.list
        { Code := 200, Count := 1
          Message := .str "https://pines-1250000000.cos.ap-nanjing.myqcloud.com/"
          Data := [{ Filename := "a.txt", Prefix := "docs/", IsDir := false,
                     Size := .int 5, CreateTime := .str "2021-01-01" }] })] := by
  refine ⟨rfl, rfl, rfl, ?_⟩
  decide

/-- The OSS side of C6: for every finite chain of pages the bucket serves from
the queried prefix, and any fuel that covers the chain, `OssHandler` writes one
body, after the last page: code 200, `data` the entries of all pages in page
order, `count` their number. -/
theorem oss_list_follows_chain {σ : Type} (env : Env Oss.Config) (sdk : Oss.SDK σ)
    (fuel : Nat) (r : Request) (pkg : Oss.Pkg) (s s1 : σ) (cfg : Oss.Config)
    (B : Oss.Bucket σ) (pages : List Oss.ListObjectsResult)
    (hcfg : Oss.InitOssClient env sdk = .ok (cfg, .inr B))
    (hop : r.query.Get "operate" = "list")
    (hchain : Oss.Chain B (r.query.Get "prefix") (r.query.Get "prefix") s pages s1)
    (hfuel : pages.length ≤ fuel) :
    ∃ l : ListReply,
      (Oss.OssHandler env sdk fuel r pkg s).map Outcome.bodies = some [some (.list l)] ∧
      l.Code = 200 ∧
      l.Data = pages.flatMap (Oss.pageResult (r.query.Get "prefix")) ∧
      l.Count = ((pages.map (fun pg => (Oss.pageResult (r.query.Get "prefix") pg).length)).sum : Nat) := by
  refine ⟨{ Code := 200
            Count := (pages.flatMap (Oss.pageResult (r.query.Get "prefix"))).length
            Message := .str cfg.Domain
            Data := pages.flatMap (Oss.pageResult (r.query.Get "prefix")) }, ?_, rfl, rfl, ?_⟩
  · rw [ossHandler_list env sdk fuel r pkg s s1 cfg B pages hcfg hop hchain hfuel]
    rfl
  · show ((pages.flatMap (Oss.pageResult (r.query.Get "prefix"))).length : Int) = _
    rw [List.length_flatMap]
    rfl

/-! ### C7 -/

/-- C7 (evaluation at the failing input): the UPS service `Example.upsFailing`
fails the `List` call with the error `list: 401 Unauthorized`.  `UpsHandler`
drops that error and answers with code 200, `count` 0 and no entries; no body
with code 500 is written. -/
theorem C7_ups_list_error_dropped :
    Example.upsFailing.List "docs/" () = (([], some "list: 401 Unauthorized"), ()) ∧
    (Ups.UpsHandler (envOf Example.upsConfig) (fun _ => Example.upsFailing)
        (queryOnly [("operate", ["list"]), ("prefix", ["docs"])]) ⟨none, none⟩ ()).bodies =
      [some (.list
        { Code := 200, Count := 0, Message := .str "https://cdn.example.com/", Data := [] })] := by
  refine ⟨rfl, ?_⟩
  decide

/-- The other SDK calls of C7: a failing `Bucket.Get`, `Object.Delete` or
`Object.Put` of COS, a failing first `ListObjects`, `DeleteObject` or
`PutObject` of OSS, or a failing `Delete`, `Put` or `Mkdir` of UPS makes the
handler write exactly one body, with code 500 and a `message` that ends with
the text of the error. -/
theorem sdk_error_reported :
    (∀ {σ : Type} (env : Env Cos.Config) (newClient : Cos.Config → Cos.Client σ)
        (r : Request) (pkg : Cos.Pkg) (s s1 : σ) (cfg : Cos.Config) (err : String),
      Cos.InitCosClient env = .ok cfg →
      (r.query.Get "operate" = "list" →
        (newClient cfg).BucketGet
          { Prefix := r.query.Get "prefix", Delimiter := "/", Marker := r.query.Get "prefix" } s
            = (.error err, s1) →
        (Cos.CosHandler env newClient r pkg s).bodies =
          [some (.response ⟨500, .str ("ErrorListObject:" ++ err), .null⟩)]) ∧
      (r.query.Get "operate" = "delete" →
        (newClient cfg).ObjectDelete (r.query.Get "path") s = (some err, s1) →
        (Cos.CosHandler env newClient r pkg s).bodies =
          [some (.response ⟨500, .str ("ErrorObjectDelete:" ++ err), .null⟩)]) ∧
      (∀ header : FileHeader, r.query.Get "operate" = "upload" →
        r.formFile = .ok header →
        (newClient cfg).ObjectPut (uploadPrefix r ++ header.Filename) (some header.content) s
          = (some err, s1) →
        (Cos.CosHandler env newClient r pkg s).bodies =
          [some (.response ⟨500, .str ("ErrorObjectUpload:" ++ err), .null⟩)]) ∧
      (r.query.Get "operate" = "mkdir" →
        (newClient cfg).ObjectPut (r.query.Get "prefix" ++ r.query.Get "dirname") none s
          = (some err, s1) →
        (Cos.CosHandler env newClient r pkg s).bodies =
          [some (.response ⟨500, .str ("ErrorMkdir:" ++ err), .null⟩)])) ∧
    (∀ {σ : Type} (env : Env Oss.Config) (sdk : Oss.SDK σ) (fuel : Nat)
        (r : Request) (pkg : Oss.Pkg) (s s1 : σ) (cfg : Oss.Config) (B : Oss.Bucket σ)
        (err : String),
      Oss.InitOssClient env sdk = .ok (cfg, .inr B) →
      (r.query.Get "operate" = "list" → 0 < fuel →
        B.ListObjects (r.query.Get "prefix") (r.query.Get "prefix") "/" s = (.error err, s1) →
        (Oss.OssHandler env sdk fuel r pkg s).map Outcome.bodies =
          some [some (.response ⟨500, .str ("ErrorListObject:" ++ err), .null⟩)]) ∧
      (r.query.Get "operate" = "delete" →
        B.DeleteObject (r.query.Get "path") s = (some err, s1) →
        (Oss.OssHandler env sdk fuel r pkg s).map Outcome.bodies =
          some [some (.response ⟨500, .str ("ErrorObjectDelete:" ++ err), .null⟩)]) ∧
      (∀ header : FileHeader, r.query.Get "operate" = "upload" →
        r.formFile = .ok header →
        B.PutObject (uploadPrefix r ++ header.Filename) (some header.content) s
          = (some err, s1) →
        (Oss.OssHandler env sdk fuel r pkg s).map Outcome.bodies =
          some [some (.response ⟨500, .str ("ErrorObjectUpload:" ++ err), .null⟩)]) ∧
      (r.query.Get "operate" = "mkdir" →
        B.PutObject (r.query.Get "prefix" ++ r.query.Get "dirname") none s = (some err, s1) →
        (Oss.OssHandler env sdk fuel r pkg s).map Outcome.bodies =
          some [some (.response ⟨500, .str ("ErrorMkdir:" ++ err), .null⟩)])) ∧
    (∀ {σ : Type} (env : Env Ups.Config) (NewUpYun : Ups.Config → Ups.UpYun σ)
        (r : Request) (pkg : Ups.Pkg) (s s1 : σ) (cfg : Ups.Config) (err : String),
      GetConfig env = .ok cfg →
      (r.query.Get "operate" = "delete" →
        (NewUpYun cfg).Delete (r.query.Get "path") false s = (some err, s1) →
        (Ups.UpsHandler env NewUpYun r pkg s).bodies =
          [some (.response ⟨500, .str ("ErrorDelete:" ++ err), .null⟩)]) ∧
      (∀ header : FileHeader, r.query.Get "operate" = "upload" →
        r.formFile = .ok header →
        (NewUpYun cfg).Put (uploadPrefix r ++ header.Filename) header.content s
          = (some err, s1) →
        (Ups.UpsHandler env NewUpYun r pkg s).bodies =
          [some (.response ⟨500, .str ("ErrorUpload:" ++ err), .null⟩)]) ∧
      (r.query.Get "operate" = "mkdir" →
        (NewUpYun cfg).Mkdir (r.query.Get "prefix" ++ r.query.Get "dirname") s
          = (some err, s1) →
        (Ups.UpsHandler env NewUpYun r pkg s).bodies =
          [some (.response ⟨500, .str ("ErrorMkdir:" ++ err), .null⟩)])) := by
  refine ⟨?_, ?_, ?_⟩
  · intro σ env newClient r pkg s s1 cfg err hcfg
    refine ⟨?_, ?_, ?_, ?_⟩
    · intro hop hcall
      simp [Cos.CosHandler, hcfg, hop, hcall, Write, Outcome.bodies]
    · intro hop hcall
      simp [Cos.CosHandler, hcfg, hop, hcall, Write, Outcome.bodies]
    · intro header hop hfile hcall
      simp [Cos.CosHandler, hcfg, hop, hfile, hcall, Write, Outcome.bodies]
    · intro hop hcall
      simp [Cos.CosHandler, hcfg, hop, hcall, Write, Outcome.bodies]
  · intro σ env sdk fuel r pkg s s1 cfg B err hcfg
    refine ⟨?_, ?_, ?_, ?_⟩
    · intro hop hfuel hcall
      obtain ⟨n, rfl⟩ := Nat.exists_eq_succ_of_ne_zero (Nat.pos_iff_ne_zero.1 hfuel)
      simp [Oss.OssHandler, Oss.listLoop, hcfg, hop, hcall, Write, Outcome.bodies]
    · intro hop hcall
      simp [Oss.OssHandler, hcfg, hop, hcall, Write, Outcome.bodies]
    · intro header hop hfile hcall
      simp [Oss.OssHandler, hcfg, hop, hfile, hcall, Write, Outcome.bodies]
    · intro hop hcall
      simp [Oss.OssHandler, hcfg, hop, hcall, Write, Outcome.bodies]
  · intro σ env NewUpYun r pkg s s1 cfg err hcfg
    refine ⟨?_, ?_, ?_⟩
    · intro hop hcall
      simp [Ups.UpsHandler, hcfg, hop, hcall, Write, Outcome.bodies]
    · intro header hop hfile hcall
      simp [Ups.UpsHandler, hcfg, hop, hfile, hcall, Write, Outcome.bodies]
    · intro hop hcall
      simp [Ups.UpsHandler, hcfg, hop, hcall, Write, Outcome.bodies]

end Pines

namespace Pines

/-! ### C8 -/

theorem less_append (p x : List Char) (hx : x ≠ []) : Store.less p (p ++ x) = true := by
  induction p with
  | nil =>
    cases x with
    | nil => exact absurd rfl hx
    | cons c t => rfl
  | cons a p ih => simp [Store.less, ih]

theorem indexOf_delimiter (a b : List Char) (h : '/' ∉ a) :
    indexOf ['/'] (a ++ '/' :: b) = some a.length := by
  induction a with
  | nil => simp [indexOf]
  | cons c a ih =>
    have hc : ¬ ('/' = c) := fun e => h (e ▸ List.mem_cons_self _ _)
    have ha : '/' ∉ a := fun e => h (List.mem_cons_of_mem _ e)
    simp [indexOf, List.isPrefixOf, ih ha, hc]

theorem rollUp_dir (p a b : String) (h : '/' ∉ a.data) :
    Store.rollUp p "/" (p ++ (a ++ "/" ++ b)) = some (p ++ a ++ "/") := by
  have hd : ("/" : String).data = ['/'] := rfl
  have hkey : (p ++ (a ++ "/" ++ b)).data = p.data ++ (a.data ++ '/' :: b.data) := by
    simp [String.data_append, hd]
  have htake : (p.data ++ (a.data ++ '/' :: b.data)).take (p.data.length + a.data.length + 1)
      = p.data ++ a.data ++ ['/'] := by
    have e : p.data ++ (a.data ++ '/' :: b.data) = (p.data ++ a.data ++ ['/']) ++ b.data := by
      simp
    rw [e]
    apply List.take_left'
    simp only [List.length_append, List.length_singleton]
  unfold Store.rollUp
  rw [hd, hkey, List.drop_left, indexOf_delimiter _ _ h]
  simp only [List.length_singleton, htake]
  simp only [reduceCtorEq, if_false, Option.some.injEq]
  apply String.ext
  simp [String.data_append, hd]

theorem mem_selected_put (p d : String) (hd : d.data ≠ []) (st : Store.Store) :
    (p ++ d, ([] : List Nat)) ∈ Store.selected ⟨p, "/", p⟩ (Store.put (p ++ d) none st) := by
  unfold Store.selected Store.put
  rw [List.mem_filter]
  refine ⟨List.mem_cons_self _ _, ?_⟩
  have h1 : HasPrefix (p ++ d) p = true := (HasPrefix_iff _ _).2 ⟨d, rfl⟩
  have h2 : Store.less p.data (p ++ d).data = true := by
    rw [String.data_append]
    exact less_append _ _ hd
  rw [h1, h2]
  rfl

/-- C8 (as stated, refuted): on the empty flat key store, COS `mkdir` with
prefix `docs/` and dirname `new` succeeds and creates the zero-byte object
`docs/new`; the following `list` on `docs/` reports it as a file: the only
entry is `new` with `is_dir` false. -/
theorem C8_mkdir_without_slash_lists_file :
    Cos.CosHandler (envOf Example.cosConfig) (fun _ => Store.client)
        (queryOnly [("operate", ["mkdir"]), ("prefix", ["docs/"]), ("dirname", ["new"])])
        ⟨none, none⟩ [] =
      .done
        { pkg :=
            { CosConfig := some { Example.cosConfig with
                APIAddress := "https://pines-1250000000.cos.ap-nanjing.myqcloud.com" }
              response := some (.response ⟨200, .str "ok", .null⟩) }
          backend := [("docs/new", [])]
          written := [some (.response ⟨200, .str "ok", .null⟩)] } ∧
    (Cos.CosHandler (envOf Example.cosConfig) (fun _ => Store.client)
        (queryOnly [("operate", ["list"]), ("prefix", ["docs/"])])
        { CosConfig := some { Example.cosConfig with
            APIAddress := "https://pines-1250000000.cos.ap-nanjing.myqcloud.com" }
          response := some (.response ⟨200, .str "ok", .null⟩) }
        [("docs/new", [])]).bodies =
      [some (.list
        { Code := 200, Count := 1
          Message := .str "https://pines-1250000000.cos.ap-nanjing.myqcloud.com/"
          Data := [{ Filename := "new", Prefix := "docs/", IsDir := false,
                     Size := .int 0, CreateTime := .str "" }] })] := by
  refine ⟨rfl, ?_⟩
  decide

/-- C8 (amended): over the flat key store, for every parent prefix `p` and
every dirname `a ++ "/" ++ b` in which `a` has no `/` (so the dirname contains
the delimiter; `b` is empty for a name such as `new/`): COS `mkdir` succeeds
and leaves the store with a zero-byte object at key `p ++ dirname`, and a
following COS `list` on `p` answers with code 200 and has an entry with
`is_dir` true, filename `a ++ "/"` and prefix `p`. -/
theorem C8_mkdir_then_list (env : Env Cos.Config) (cfg : Cos.Config)
    (r1 r2 : Request) (pkg : Cos.Pkg) (st : Store.Store) (p a b : String)
    (hcfg : Cos.InitCosClient env = .ok cfg)
    (h1 : r1.query.Get "operate" = "mkdir")
    (h1p : r1.query.Get "prefix" = p)
    (h1d : r1.query.Get "dirname" = a ++ "/" ++ b)
    (ha : '/' ∉ a.data)
    (h2 : r2.query.Get "operate" = "list")
    (h2p : r2.query.Get "prefix" = p) :
    ∃ pkg1 : Cos.Pkg,
      Cos.CosHandler env (fun _ => Store.client) r1 pkg st =
        .done { pkg := pkg1, backend := Store.put (p ++ (a ++ "/" ++ b)) none st,
                written := [some (.response ⟨200, .str "ok", .null⟩)] } ∧
      (p ++ (a ++ "/" ++ b), []) ∈ Store.put (p ++ (a ++ "/" ++ b)) none st ∧
      ∃ (pkg2 : Cos.Pkg) (l : ListReply),
        Cos.CosHandler env (fun _ => Store.client) r2 pkg1
            (Store.put (p ++ (a ++ "/" ++ b)) none st) =
          .done { pkg := pkg2, backend := Store.put (p ++ (a ++ "/" ++ b)) none st,
                  written := [some (.list l)] } ∧
        l.Code = 200 ∧
        ({ Filename := a ++ "/", Prefix := p, IsDir := true, Size := .null,
           CreateTime := .str "" } : ListObject) ∈ l.Data := by
  refine ⟨{ CosConfig := some cfg, response := some (.response ⟨200, .str "ok", .null⟩) },
    ?_, ?_, ?_⟩
  · simp [Cos.CosHandler, hcfg, h1, h1p, h1d, Write, Store.client]
  · exact List.mem_cons_self _ _
  · have hget : ((fun _ => Store.client) cfg : Cos.Client Store.Store).BucketGet
        { Prefix := r2.query.Get "prefix", Delimiter := "/", Marker := r2.query.Get "prefix" }
        (Store.put (p ++ (a ++ "/" ++ b)) none st) =
        (.ok (Store.get ⟨p, "/", p⟩ (Store.put (p ++ (a ++ "/" ++ b)) none st)),
          Store.put (p ++ (a ++ "/" ++ b)) none st) := by
      rw [h2p]
      rfl
    refine ⟨_, _, cosHandler_list env (fun _ => Store.client) r2 _ _ _ cfg _ hcfg h2 hget,
      rfl, ?_⟩
    have hne : (a ++ "/" ++ b).data ≠ [] := by
      have hd : ("/" : String).data = ['/'] := rfl
      simp [String.data_append, hd]
    have hcp : p ++ a ++ "/" ∈
        (Store.get ⟨p, "/", p⟩ (Store.put (p ++ (a ++ "/" ++ b)) none st)).CommonPrefixes := by
      unfold Store.get
      simp only [List.mem_dedup, List.mem_filterMap]
      exact ⟨_, mem_selected_put p (a ++ "/" ++ b) hne st, rollUp_dir p a b ha⟩
    rw [h2p]
    unfold Cos.listResult
    apply List.mem_append_left
    rw [List.mem_map]
    refine ⟨_, hcp, ?_⟩
    have hrep : Replace (p ++ a ++ "/") p "" 1 = a ++ "/" := by
      rw [String.append_assoc, Replace_append_left]
    rw [hrep]

/-- Witness for C8: on a store that already holds `readme.md`, `mkdir` with
prefix `docs/` and dirname `new/`, then `list` on `docs/`. -/
theorem C8_mkdir_then_list_witness :
    ∃ pkg1 : Cos.Pkg,
      Cos.CosHandler (envOf Example.cosConfig) (fun _ => Store.client)
          (queryOnly [("operate", ["mkdir"]), ("prefix", ["docs/"]), ("dirname", ["new/"])])
          ⟨none, none⟩ [("readme.md", [35])] =
        .done { pkg := pkg1, backend := Store.put ("docs/" ++ ("new" ++ "/" ++ "")) none
                  [("readme.md", [35])],
                written := [some (.response ⟨200, .str "ok", .null⟩)] } ∧
      ("docs/" ++ ("new" ++ "/" ++ ""), []) ∈
        Store.put ("docs/" ++ ("new" ++ "/" ++ "")) none [("readme.md", [35])] ∧
      ∃ (pkg2 : Cos.Pkg) (l : ListReply),
        Cos.CosHandler (envOf Example.cosConfig) (fun _ => Store.client)
            (queryOnly [("operate", ["list"]), ("prefix", ["docs/"])]) pkg1
            (Store.put ("docs/" ++ ("new" ++ "/" ++ "")) none [("readme.md", [35])]) =
          .done { pkg := pkg2,
                  backend := Store.put ("docs/" ++ ("new" ++ "/" ++ "")) none
                    [("readme.md", [35])],
                  written := [some (.list l)] } ∧
        l.Code = 200 ∧
        ({ Filename := "new" ++ "/", Prefix := "docs/", IsDir := true, Size := .null,
           CreateTime := .str "" } : ListObject) ∈ l.Data :=
  C8_mkdir_then_list (envOf Example.cosConfig) _
    (queryOnly [("operate", ["mkdir"]), ("prefix", ["docs/"]), ("dirname", ["new/"])])
    (queryOnly [("operate", ["list"]), ("prefix", ["docs/"])])
    ⟨none, none⟩ [("readme.md", [35])] "docs/" "new" "" rfl rfl rfl (by decide) (by decide)
    rfl rfl

end Pines

namespace Pines

/-! ### C9 -/

/-- C9 (as stated, refuted): a COS listing that reports the common prefix
`docs/img/` yields a directory entry whose `create_time` is the empty string,
not null; a UPS listing that reports the directory `img` yields a directory
entry that carries the reported size and time. -/
theorem C9_directory_entry_fields_present :
    (Cos.CosHandler (envOf Example.cosConfig) (fun _ => Store.client)
        (queryOnly [("operate", ["list"]), ("prefix", ["docs/"])]) ⟨none, none⟩
        [("docs/img/x.png", [3])]).bodies =
      [some (.list
        { Code := 200, Count := 1
          Message := .str "https://pines-1250000000.cos.ap-nanjing.myqcloud.com/"
          Data := [{ Filename := "img/", Prefix := "docs/", IsDir := true, Size := .null,
                     CreateTime := .str "" }] })] ∧
    Value.str "" ≠ Value.null ∧
    (Ups.UpsHandler (envOf Example.upsConfig) (fun _ => Example.upsDir)
        (queryOnly [("operate", ["list"]), ("prefix", ["docs"])]) ⟨none, none⟩ ()).bodies =
      [some (.list
        { Code := 200, Count := 2, Message := .str "https://cdn.example.com/"
          Data := [{ Filename := "img/", Prefix := "docs/", IsDir := true, Size := .int 0,
                     CreateTime := .time ⟨300⟩ },
                   { Filename := "a.txt", Prefix := "docs/", IsDir := false, Size := .int 5,
                     CreateTime := .time ⟨100⟩ }] })] := by
  decide

/-- C9 (amended): the entries of a `list` reply correspond one to one, in
order, to the items the backend reported, and `is_dir` is true exactly for the
items reported as a common prefix (COS, OSS) or with `IsDir` set (UPS).  An
entry with `is_dir` false carries the object's size and last-modified time.  An
entry with `is_dir` true has, in COS, a null `size` and the empty string as
`create_time`; in OSS, a null `size` and the zero time as `create_time`; in
UPS, the size and the time the backend reported for the directory. -/
theorem C9_list_entry_fields :
    (∀ {σ : Type} (env : Env Cos.Config) (newClient : Cos.Config → Cos.Client σ)
        (r : Request) (pkg : Cos.Pkg) (s s1 : σ) (cfg : Cos.Config)
        (v : Cos.BucketGetResult),
      Cos.InitCosClient env = .ok cfg →
      r.query.Get "operate" = "list" →
      (newClient cfg).BucketGet
        { Prefix := r.query.Get "prefix", Delimiter := "/", Marker := r.query.Get "prefix" } s
          = (.ok v, s1) →
      ∃ (pkg1 : Cos.Pkg) (l : ListReply),
        Cos.CosHandler env newClient r pkg s =
          .done { pkg := pkg1, backend := s1, written := [some (.list l)] } ∧
        List.Forall₂
          (fun item e =>
            match item with
            | .inl _ => e.IsDir = true ∧ e.Size = .null ∧ e.CreateTime = .str ""
            | .inr obj => e.IsDir = false ∧ e.Size = .int obj.Size ∧
                e.CreateTime = .str obj.LastModified)
          (Cos.reported v) l.Data) ∧
    (∀ {σ : Type} (env : Env Oss.Config) (sdk : Oss.SDK σ) (fuel : Nat)
        (r : Request) (pkg : Oss.Pkg) (s s1 : σ) (cfg : Oss.Config) (B : Oss.Bucket σ)
        (pages : List Oss.ListObjectsResult),
      Oss.InitOssClient env sdk = .ok (cfg, .inr B) →
      r.query.Get "operate" = "list" →
      Oss.Chain B (r.query.Get "prefix") (r.query.Get "prefix") s pages s1 →
      pages.length ≤ fuel →
      ∃ (pkg1 : Oss.Pkg) (l : ListReply),
        Oss.OssHandler env sdk fuel r pkg s =
          some (.done { pkg := pkg1, backend := s1, written := [some (.list l)] }) ∧
        List.Forall₂
          (fun item e =>
            match item with
            | .inl _ => e.IsDir = true ∧ e.Size = .null ∧ e.CreateTime = .time Time.zero
            | .inr obj => e.IsDir = false ∧ e.Size = .int obj.Size ∧
                e.CreateTime = .time obj.LastModified)
          (pages.flatMap Oss.reported) l.Data) ∧
    (∀ {σ : Type} (env : Env Ups.Config) (NewUpYun : Ups.Config → Ups.UpYun σ)
        (r : Request) (pkg : Ups.Pkg) (s s1 : σ) (cfg : Ups.Config)
        (objs : List Ups.FileInfo) (err : Option String),
      GetConfig env = .ok cfg →
      r.query.Get "operate" = "list" →
      (NewUpYun cfg).List (r.query.Get "prefix" ++ "/") s = ((objs, err), s1) →
      ∃ (pkg1 : Ups.Pkg) (l : ListReply),
        Ups.UpsHandler env NewUpYun r pkg s =
          .done { pkg := pkg1, backend := s1, written := [some (.list l)] } ∧
        List.Forall₂
          (fun obj e =>
            e.IsDir = obj.IsDir ∧ e.Size = .int obj.Size ∧ e.CreateTime = .time obj.Time)
          objs l.Data) := by
  refine ⟨?_, ?_, ?_⟩
  · intro σ env newClient r pkg s s1 cfg v hcfg hop hget
    refine ⟨_, _, cosHandler_list env newClient r pkg s s1 cfg v hcfg hop hget, ?_⟩
    apply cos_forall₂
    · intro dirname
      exact ⟨rfl, rfl, rfl⟩
    · intro obj
      exact ⟨rfl, rfl, rfl⟩
  · intro σ env sdk fuel r pkg s s1 cfg B pages hcfg hop hchain hfuel
    refine ⟨_, _, ossHandler_list env sdk fuel r pkg s s1 cfg B pages hcfg hop hchain hfuel, ?_⟩
    apply oss_forall₂
    · intro dirname
      exact ⟨rfl, rfl, rfl⟩
    · intro obj
      exact ⟨rfl, rfl, rfl⟩
  · intro σ env NewUpYun r pkg s s1 cfg objs err hcfg hop hlist
    refine ⟨_, _, upsHandler_list env NewUpYun r pkg s s1 cfg objs err hcfg hop hlist, ?_⟩
    rw [List.forall₂_map_right_iff, List.forall₂_same]
    intro obj _
    exact ⟨rfl, rfl, rfl⟩

/-- Witness for C9: the flat key store holding `docs/a.txt` and
`docs/img/x.png` listed through COS, the two-page OSS bucket, and the UPS
directory holding `img` and `a.txt`, all listed under `docs`. -/
theorem C9_list_entry_fields_witness :
    (∃ (pkg1 : Cos.Pkg) (l : ListReply),
      Cos.CosHandler (envOf Example.cosConfig) (fun _ => Store.client)
          (queryOnly [("operate", ["list"]), ("prefix", ["docs/"])]) ⟨none, none⟩
          [("docs/a.txt", [1, 2]), ("docs/img/x.png", [3])] =
        .done { pkg := pkg1, backend := [("docs/a.txt", [1, 2]), ("docs/img/x.png", [3])],
                written := [some (.list l)] } ∧
      List.Forall₂
        (fun (item : String ⊕ Cos.Object) (e : ListObject) =>
          match item with
          | .inl _ => e.IsDir = true ∧ e.Size = .null ∧ e.CreateTime = .str ""
          | .inr obj => e.IsDir = false ∧ e.Size = .int obj.Size ∧
              e.CreateTime = .str obj.LastModified)
        (Cos.reported (Store.get ⟨"docs/", "/", "docs/"⟩
          [("docs/a.txt", [1, 2]), ("docs/img/x.png", [3])])) l.Data) ∧
    (∃ (pkg1 : Oss.Pkg) (l : ListReply),
      Oss.OssHandler (envOf Example.ossConfig) Example.ossSDK 2
          (queryOnly [("operate", ["list"]), ("prefix", ["docs/"])]) ⟨none, none⟩ () =
        some (.done { pkg := pkg1, backend := (), written := [some (.list l)] }) ∧
      List.Forall₂
        (fun (item : String ⊕ Oss.ObjectProperties) (e : ListObject) =>
          match item with
          | .inl _ => e.IsDir = true ∧ e.Size = .null ∧ e.CreateTime = .time Time.zero
          | .inr obj => e.IsDir = false ∧ e.Size = .int obj.Size ∧
              e.CreateTime = .time obj.LastModified)
        ([Example.ossPage1, Example.ossPage2].flatMap Oss.reported) l.Data) ∧
    (∃ (pkg1 : Ups.Pkg) (l : ListReply),
      Ups.UpsHandler (envOf Example.upsConfig) (fun _ => Example.upsDir)
          (queryOnly [("operate", ["list"]), ("prefix", ["docs"])]) ⟨none, none⟩ () =
        .done { pkg := pkg1, backend := (), written := [some (.list l)] } ∧
      List.Forall₂
        (fun (obj : Ups.FileInfo) (e : ListObject) =>
          e.IsDir = obj.IsDir ∧ e.Size = .int obj.Size ∧ e.CreateTime = .time obj.Time)
        [⟨"img", 0, ⟨300⟩, true⟩, ⟨"a.txt", 5, ⟨100⟩, false⟩] l.Data) :=
  ⟨C9_list_entry_fields.1 (envOf Example.cosConfig) (fun _ => Store.client)
      (queryOnly [("operate", ["list"]), ("prefix", ["docs/"])]) ⟨none, none⟩
      [("docs/a.txt", [1, 2]), ("docs/img/x.png", [3])] _ _ _ rfl rfl rfl,
   C9_list_entry_fields.2.1 (envOf Example.ossConfig) Example.ossSDK 2
      (queryOnly [("operate", ["list"]), ("prefix", ["docs/"])]) ⟨none, none⟩ () ()
      Example.ossConfig Example.ossPaged [Example.ossPage1, Example.ossPage2] rfl rfl
      (Oss.Chain.more rfl rfl (Oss.Chain.last rfl rfl)) (by decide),
   C9_list_entry_fields.2.2 (envOf Example.upsConfig) (fun _ => Example.upsDir)
      (queryOnly [("operate", ["list"]), ("prefix", ["docs"])]) ⟨none, none⟩ () ()
      Example.upsConfig _ none rfl rfl rfl⟩

end Pines

namespace Pines

/-! ### C10 -/

/-- C10: each `GetConfig` panics exactly when reading `config.yaml` fails or
its YAML deserialization fails, and otherwise returns the deserialized
structure (login.go and misc.go also store it in the package-level `config`).
When it panics, the handler that called it (`CosHandler`, `OssHandler`,
`UpsHandler`, `Login`, `GetUploadAPI`) is left by that panic before anything
has been written to the response. -/
theorem C10_config_failure_panics :
    (∀ {C : Type} (env : Env C),
      ((∃ msg, GetConfig env = .error msg) ↔
        ((∃ e, env.readFile = .error e) ∨
          ∃ yamlFile e, env.readFile = .ok yamlFile ∧ env.unmarshal yamlFile = .error e)) ∧
      (∀ yamlFile config, env.readFile = .ok yamlFile → env.unmarshal yamlFile = .ok config →
        GetConfig env = .ok config)) ∧
    (∀ (env : Env Login.Config) (pkg : Login.Pkg),
      ((∃ msg, Login.GetConfig env pkg = .error msg) ↔
        ((∃ e, env.readFile = .error e) ∨
          ∃ yamlFile e, env.readFile = .ok yamlFile ∧ env.unmarshal yamlFile = .error e)) ∧
      (∀ yamlFile config, env.readFile = .ok yamlFile → env.unmarshal yamlFile = .ok config →
        Login.GetConfig env pkg = .ok { pkg with config := some config })) ∧
    (∀ (env : Env Misc.Config) (pkg : Misc.Pkg),
      ((∃ msg, Misc.GetConfig env pkg = .error msg) ↔
        ((∃ e, env.readFile = .error e) ∨
          ∃ yamlFile e, env.readFile = .ok yamlFile ∧ env.unmarshal yamlFile = .error e)) ∧
      (∀ yamlFile config, env.readFile = .ok yamlFile → env.unmarshal yamlFile = .ok config →
        Misc.GetConfig env pkg = .ok { pkg with config := some config })) ∧
    (∀ {σ : Type} (env : Env Cos.Config) (newClient : Cos.Config → Cos.Client σ)
        (r : Request) (pkg : Cos.Pkg) (s : σ) (msg : String),
      GetConfig env = .error msg →
      Cos.CosHandler env newClient r pkg s = .panic msg []) ∧
    (∀ {σ : Type} (env : Env Oss.Config) (sdk : Oss.SDK σ) (fuel : Nat)
        (r : Request) (pkg : Oss.Pkg) (s : σ) (msg : String),
      GetConfig env = .error msg →
      Oss.OssHandler env sdk fuel r pkg s = some (.panic msg [])) ∧
    (∀ {σ : Type} (env : Env Ups.Config) (NewUpYun : Ups.Config → Ups.UpYun σ)
        (r : Request) (pkg : Ups.Pkg) (s : σ) (msg : String),
      GetConfig env = .error msg →
      Ups.UpsHandler env NewUpYun r pkg s = .panic msg []) ∧
    (∀ (env : Env Login.Config) (r : Request) (pkg : Login.Pkg) (msg : String),
      Login.GetConfig env pkg = .error msg →
      Login.Login env r pkg = .panic msg []) ∧
    (∀ (env : Env Misc.Config) (r : Request) (pkg : Misc.Pkg) (msg : String),
      Misc.GetConfig env pkg = .error msg →
      Misc.GetUploadAPI env r pkg = .panic msg []) := by
  refine ⟨?_, ?_, ?_, ?_, ?_, ?_, ?_, ?_⟩
  · intro C env
    refine ⟨?_, ?_⟩
    · unfold GetConfig
      cases hr : env.readFile with
      | error e => simp
      | ok yamlFile =>
        cases hu : env.unmarshal yamlFile with
        | error e => simp [hu]
        | ok config => simp [hu]
    · intro yamlFile config hr hu
      simp [GetConfig, hr, hu]
  · intro env pkg
    refine ⟨?_, ?_⟩
    · unfold Login.GetConfig
      cases hr : env.readFile with
      | error e => simp
      | ok yamlFile =>
        cases hu : env.unmarshal yamlFile with
        | error e => simp [hu]
        | ok config => simp [hu]
    · intro yamlFile config hr hu
      simp [Login.GetConfig, hr, hu]
  · intro env pkg
    refine ⟨?_, ?_⟩
    · unfold Misc.GetConfig
      cases hr : env.readFile with
      | error e => simp
      | ok yamlFile =>
        cases hu : env.unmarshal yamlFile with
        | error e => simp [hu]
        | ok config => simp [hu]
    · intro yamlFile config hr hu
      simp [Misc.GetConfig, hr, hu]
  · intro σ env newClient r pkg s msg h
    simp [Cos.CosHandler, Cos.InitCosClient, h]
  · intro σ env sdk fuel r pkg s msg h
    simp [Oss.OssHandler, Oss.InitOssClient, h]
  · intro σ env NewUpYun r pkg s msg h
    simp [Ups.UpsHandler, h]
  · intro env r pkg msg h
    simp [Login.Login, h]
  · intro env r pkg msg h
    simp [Misc.GetUploadAPI, h]

/-- Witness for C10: a missing `config.yaml` and a malformed one. -/
theorem C10_config_failure_panics_witness :
    (∃ msg, GetConfig (Example.envMalformed : Env Cos.Config) = .error msg) ∧
    (∃ msg, Login.GetConfig Example.envMalformed ⟨none, none⟩ = .error msg) ∧
    (∃ msg, Misc.GetConfig Example.envMalformed ⟨none, none⟩ = .error msg) ∧
    GetConfig (envOf Example.ossConfig) = .ok Example.ossConfig ∧
    Cos.CosHandler Example.envMissing (fun _ => Store.client)
        (queryOnly [("operate", ["domain"])]) ⟨none, none⟩ [] =
      .panic "open config.yaml: no such file or directory" [] ∧
    Oss.OssHandler Example.envMissing Example.ossSDK 1
        (queryOnly [("operate", ["list"])]) ⟨none, none⟩ () =
      some (.panic "open config.yaml: no such file or directory" []) ∧
    Ups.UpsHandler Example.envMalformed (fun _ => Example.upsDir)
        (queryOnly [("operate", ["list"])]) ⟨none, none⟩ () =
      .panic "read config file error:yaml: line 1: did not find expected key" [] ∧
    Login.Login Example.envMissing (queryOnly [("token", ["t"])]) ⟨none, none⟩ =
      .panic "open config.yaml: no such file or directory" [] ∧
    Misc.GetUploadAPI Example.envMalformed (queryOnly []) ⟨none, none⟩ =
      .panic "read config file error:yaml: line 1: did not find expected key" [] :=
  ⟨(C10_config_failure_panics.1 (Example.envMalformed : Env Cos.Config)).1.2
      (Or.inr ⟨[58, 32, 58], "yaml: line 1: did not find expected key", rfl, rfl⟩),
   (C10_config_failure_panics.2.1 Example.envMalformed ⟨none, none⟩).1.2
      (Or.inr ⟨[58, 32, 58], "yaml: line 1: did not find expected key", rfl, rfl⟩),
   (C10_config_failure_panics.2.2.1 Example.envMalformed ⟨none, none⟩).1.2
      (Or.inr ⟨[58, 32, 58], "yaml: line 1: did not find expected key", rfl, rfl⟩),
   (C10_config_failure_panics.1 (envOf Example.ossConfig)).2 [] Example.ossConfig rfl rfl,
   C10_config_failure_panics.2.2.2.1 Example.envMissing (fun _ => Store.client)
      (queryOnly [("operate", ["domain"])]) ⟨none, none⟩ [] _ rfl,
   C10_config_failure_panics.2.2.2.2.1 Example.envMissing Example.ossSDK 1
      (queryOnly [("operate", ["list"])]) ⟨none, none⟩ () _ rfl,
   C10_config_failure_panics.2.2.2.2.2.1 Example.envMalformed (fun _ => Example.upsDir)
      (queryOnly [("operate", ["list"])]) ⟨none, none⟩ () _ rfl,
   C10_config_failure_panics.2.2.2.2.2.2.1 Example.envMissing (queryOnly [("token", ["t"])])
      ⟨none, none⟩ _ rfl,
   C10_config_failure_panics.2.2.2.2.2.2.2 Example.envMalformed (queryOnly [])
      ⟨none, none⟩ _ rfl⟩

end Pines

namespace Pines

/-! ### C11 -/

/-- C11: `GetUploadAPI` does not depend on the request, nor on the package
variables it starts from: for one and the same configuration file any two calls
have the same outcome.  When the file loads to `c`, that outcome is a single
body with `code` 200, `utoken` equal to `c.UToken` and `url` equal to
`c.Default`. -/
theorem C11_upload_api_ignores_request :
    (∀ (env : Env Misc.Config) (r1 r2 : Request) (pkg1 pkg2 : Misc.Pkg),
      Misc.GetUploadAPI env r1 pkg1 = Misc.GetUploadAPI env r2 pkg2) ∧
    (∀ (env : Env Misc.Config) (c : Misc.Config) (yamlFile : List Nat) (r : Request)
        (pkg : Misc.Pkg),
      env.readFile = .ok yamlFile → env.unmarshal yamlFile = .ok c →
      Misc.GetUploadAPI env r pkg =
        .done ({ response := some (.uploadAPI 200 c.UToken (.str c.Default)), config := some c },
          [some (.uploadAPI 200 c.UToken (.str c.Default))])) := by
  constructor
  · intro env r1 r2 pkg1 pkg2
    unfold Misc.GetUploadAPI Misc.GetConfig
    cases hr : env.readFile with
    | error e => rfl
    | ok yamlFile =>
      cases hu : env.unmarshal yamlFile with
      | error e => simp [hu]
      | ok config => simp [hu]
  · intro env c yamlFile r pkg hread hyaml
    simp [Misc.GetUploadAPI, Misc.GetConfig, hread, hyaml, Write]

/-- Witness for C11: a bare request on a fresh process and an upload request
carrying a wrong `token`, issued after another reply was left in the buffer. -/
theorem C11_upload_api_ignores_request_witness :
    Misc.GetUploadAPI (envOf Example.miscConfig) (queryOnly []) ⟨none, none⟩ =
      Misc.GetUploadAPI (envOf Example.miscConfig)
        { query := [("token", ["wrong"]), ("operate", ["upload"])]
          formFile := .ok ⟨"a.txt", [104, 105]⟩
          multipartForm := some [("prefix", ["docs/"])] }
        ⟨some (.loginError 500 "token error"), none⟩ ∧
    Misc.GetUploadAPI (envOf Example.miscConfig)
        { query := [("token", ["wrong"]), ("operate", ["upload"])]
          formFile := .ok ⟨"a.txt", [104, 105]⟩
          multipartForm := some [("prefix", ["docs/"])] }
        ⟨some (.loginError 500 "token error"), none⟩ =
      .done ({ response := some (.uploadAPI 200 "upload-secret"
                  (.str "https://pines.example.com/api/cos")),
               config := some Example.miscConfig },
        [some (.uploadAPI 200 "upload-secret" (.str "https://pines.example.com/api/cos"))]) :=
  ⟨C11_upload_api_ignores_request.1 (envOf Example.miscConfig) _ _ _ _,
   C11_upload_api_ignores_request.2 (envOf Example.miscConfig) Example.miscConfig [] _ _
     rfl rfl⟩

end Pines

namespace Pines

/-! ### C12 -/

/-- C12 (as stated, refuted): the OSS configuration has an empty bucket name, so
`client.Bucket` fails during the initialisation; the request carries the
unrecognised `operate=rename` and the buffer holds an earlier reply.
`OssHandler` answers with the initialisation error, code 500, and leaves that
error in the buffer; the earlier reply is neither kept nor written. -/
theorem C12_oss_init_error_replaces_buffer :
    Oss.OssHandler (envOf Example.ossConfigNoBucket) Example.ossSDKChecked 0
        (queryOnly [("operate", ["rename"])])
        { OssConfig := none, response := some (.response ⟨200, .str "ok", .null⟩) } () =
      some (.done
        { pkg :=
            { OssConfig := some Example.ossConfigNoBucket
              response := some (.response
                ⟨500, .str "ErrorInitBucket:bucket name  len is between [3-63] now is 0",
                 .null⟩) }
          backend := ()
          written := [some (.response
                ⟨500, .str "ErrorInitBucket:bucket name  len is between [3-63] now is 0",
                 .null⟩)] }) :=
  rfl

/-- C12 (amended): once the initialisation of a backend handler has succeeded
(the configuration file loads; for OSS also the client and the bucket handle
are created), for every `operate` value other than `list`, `delete`, `upload`,
`mkdir` and `domain` (the empty string included) and every prior content of the
package-level `response`: the handler returns with the backend in the state it
started from, whatever the SDK client is, with `response` unchanged, and the
only body it writes is that prior content.  When the initialisation of OSS
fails, the handler instead writes the initialisation error, which has code 500,
and leaves it in `response`, whatever the request is. -/
theorem C12_unknown_operate_writes_buffer :
    (∀ {σ : Type} (env : Env Cos.Config) (newClient : Cos.Config → Cos.Client σ)
        (r : Request) (pkg : Cos.Pkg) (s : σ) (cfg : Cos.Config),
      Cos.InitCosClient env = .ok cfg →
      r.query.Get "operate" ≠ "list" → r.query.Get "operate" ≠ "delete" →
      r.query.Get "operate" ≠ "upload" → r.query.Get "operate" ≠ "mkdir" →
      r.query.Get "operate" ≠ "domain" →
      Cos.CosHandler env newClient r pkg s =
        .done { pkg := { CosConfig := some cfg, response := pkg.response },
                backend := s, written := [pkg.response] }) ∧
    (∀ {σ : Type} (env : Env Oss.Config) (sdk : Oss.SDK σ) (fuel : Nat)
        (r : Request) (pkg : Oss.Pkg) (s : σ) (cfg : Oss.Config) (B : Oss.Bucket σ),
      Oss.InitOssClient env sdk = .ok (cfg, .inr B) →
      r.query.Get "operate" ≠ "list" → r.query.Get "operate" ≠ "delete" →
      r.query.Get "operate" ≠ "upload" → r.query.Get "operate" ≠ "mkdir" →
      r.query.Get "operate" ≠ "domain" →
      Oss.OssHandler env sdk fuel r pkg s =
        some (.done
          { pkg := { OssConfig := some cfg, response := pkg.response },
            backend := s, written := [pkg.response] })) ∧
    (∀ {σ : Type} (env : Env Ups.Config) (NewUpYun : Ups.Config → Ups.UpYun σ)
        (r : Request) (pkg : Ups.Pkg) (s : σ) (cfg : Ups.Config),
      GetConfig env = .ok cfg →
      r.query.Get "operate" ≠ "list" → r.query.Get "operate" ≠ "delete" →
      r.query.Get "operate" ≠ "upload" → r.query.Get "operate" ≠ "mkdir" →
      r.query.Get "operate" ≠ "domain" →
      Ups.UpsHandler env NewUpYun r pkg s =
        .done { pkg := { UpsConfig := some cfg, response := pkg.response },
                backend := s, written := [pkg.response] }) ∧
    (∀ {σ : Type} (env : Env Oss.Config) (sdk : Oss.SDK σ) (fuel : Nat)
        (r : Request) (pkg : Oss.Pkg) (s : σ) (cfg : Oss.Config) (err : Response),
      Oss.InitOssClient env sdk = .ok (cfg, .inl err) →
      err.Code = 500 ∧
      Oss.OssHandler env sdk fuel r pkg s =
        some (.done
          { pkg := { OssConfig := some cfg, response := some (.response err) },
            backend := s, written := [some (.response err)] })) := by
  refine ⟨?_, ?_, ?_, ?_⟩
  · intro σ env newClient r pkg s cfg hcfg h1 h2 h3 h4 h5
    simp [Cos.CosHandler, hcfg, h1, h2, h3, h4, h5, Write]
  · intro σ env sdk fuel r pkg s cfg B hcfg h1 h2 h3 h4 h5
    simp [Oss.OssHandler, hcfg, h1, h2, h3, h4, h5, Write]
  · intro σ env NewUpYun r pkg s cfg hcfg h1 h2 h3 h4 h5
    simp [Ups.UpsHandler, hcfg, h1, h2, h3, h4, h5, Write]
  · intro σ env sdk fuel r pkg s cfg err hinit
    refine ⟨?_, ?_⟩
    · unfold Oss.InitOssClient at hinit
      cases hg : GetConfig env with
      | error msg => simp [hg] at hinit
      | ok c0 =>
        simp only [hg] at hinit
        cases hn : sdk.New c0.Endpoint c0.Ak c0.Sk with
        | error e =>
          simp only [hn, Except.ok.injEq, Prod.mk.injEq, Sum.inl.injEq] at hinit
          rw [← hinit.2]
        | ok client =>
          simp only [hn] at hinit
          cases hb : client c0.Bucket with
          | error e =>
            simp only [hb, Except.ok.injEq, Prod.mk.injEq, Sum.inl.injEq] at hinit
            rw [← hinit.2]
          | ok B => simp [hb] at hinit
    · simp [Oss.OssHandler, hinit, Write]

/-- Witness for C12: `operate=rename` through COS with a client that records
every call (the record stays empty), a request without `operate` through OSS on
a fresh process, and `operate=rename` through UPS, each with a different prior
content of the buffer; then `operate=list` through OSS with an empty bucket
name, for which the initialisation fails. -/
theorem C12_unknown_operate_writes_buffer_witness :
    Cos.CosHandler (envOf Example.cosConfig) (fun _ => Example.cosLogging)
        (queryOnly [("operate", ["rename"]), ("prefix", ["docs/"])])
        { CosConfig := none, response := some (.response ⟨200, .str "ok", .null⟩) } [] =
      .done
        { pkg :=
            { CosConfig := some { Example.cosConfig with
                APIAddress := "https://pines-1250000000.cos.ap-nanjing.myqcloud.com" }
              response := some (.response ⟨200, .str "ok", .null⟩) }
          backend := []
          written := [some (.response ⟨200, .str "ok", .null⟩)] } ∧
    Oss.OssHandler (envOf Example.ossConfig) Example.ossSDK 0 (queryOnly [])
        { OssConfig := none, response := none } () =
      some (.done
        { pkg := { OssConfig := some Example.ossConfig, response := none }
          backend := ()
          written := [none] }) ∧
    Ups.UpsHandler (envOf Example.upsConfig) (fun _ => Example.upsDir)
        (queryOnly [("operate", ["rename"])])
        { UpsConfig := none
          response := some (.response ⟨500, .str "ErrorMkdir:exists", .null⟩) } () =
      .done
        { pkg :=
            { UpsConfig := some Example.upsConfig
              response := some (.response ⟨500, .str "ErrorMkdir:exists", .null⟩) }
          backend := ()
          written := [some (.response ⟨500, .str "ErrorMkdir:exists", .null⟩)] } ∧
    ((⟨500, .str "ErrorInitBucket:bucket name  len is between [3-63] now is 0", .null⟩ :
        Response).Code = 500 ∧
      Oss.OssHandler (envOf Example.ossConfigNoBucket) Example.ossSDKChecked 1
          (queryOnly [("operate", ["list"]), ("prefix", ["docs/"])])
          { OssConfig := none, response := none } () =
        some (.done
          { pkg :=
              { OssConfig := some Example.ossConfigNoBucket
                response := some (.response
                  ⟨500, .str "ErrorInitBucket:bucket name  len is between [3-63] now is 0",
                   .null⟩) }
            backend := ()
            written := [some (.response
                  ⟨500, .str "ErrorInitBucket:bucket name  len is between [3-63] now is 0",
                   .null⟩)] })) :=
  ⟨C12_unknown_operate_writes_buffer.1 (envOf Example.cosConfig) (fun _ => Example.cosLogging)
      (queryOnly [("operate", ["rename"]), ("prefix", ["docs/"])])
      { CosConfig := none, response := some (.response ⟨200, .str "ok", .null⟩) } [] _ rfl
      (by decide) (by decide) (by decide) (by decide) (by decide),
   C12_unknown_operate_writes_buffer.2.1 (envOf Example.ossConfig) Example.ossSDK 0
      (queryOnly []) { OssConfig := none, response := none } () Example.ossConfig
      Example.ossPaged rfl
      (by decide) (by decide) (by decide) (by decide) (by decide),
   C12_unknown_operate_writes_buffer.2.2.1 (envOf Example.upsConfig) (fun _ => Example.upsDir)
      (queryOnly [("operate", ["rename"])])
      { UpsConfig := none
        response := some (.response ⟨500, .str "ErrorMkdir:exists", .null⟩) } ()
      Example.upsConfig rfl
      (by decide) (by decide) (by decide) (by decide) (by decide),
   C12_unknown_operate_writes_buffer.2.2.2 (envOf Example.ossConfigNoBucket)
      Example.ossSDKChecked 1 (queryOnly [("operate", ["list"]), ("prefix", ["docs/"])])
      { OssConfig := none, response := none } () Example.ossConfigNoBucket
      ⟨500, .str "ErrorInitBucket:bucket name  len is between [3-63] now is 0", .null⟩ rfl⟩

end Pines
